import Mathlib

/-!
# immich-prometheus-exporter: the upstream client and the collector

A shallow embedding of `internal/immich/client.go` and
`internal/collector/collector.go`.

* Go strings are Lean strings; `strings.TrimRight` works on their characters
  (the cutset used by the source is the single ASCII character `/`, which never
  occurs inside a multi-byte UTF-8 sequence).
* Go `int` and `int64` fields are `Int`; what is proved of all integers holds
  of those of the 64-bit range.
* A Go `float64` sample is represented by the rational number it denotes
  (every sample built by the collector is finite; the sign of a zero is not
  kept).  The conversion `float64(n)` of a 64-bit integer rounds to 53
  significant bits, ties to even.
* `net/http`, `encoding/json` and the clock are outside the repository; what
  they answer is a parameter (`Env`, and the elapsed seconds given to
  `Collect`).
* A channel is the list of the values sent on it, oldest first; a panic is
  `Except.error`.
* `log.Printf` has no effect on any value modelled here and is left out.
-/

namespace Immich

/-! ## Go runtime pieces used by the source -/

/-- The number a Go `float64` denotes. -/
abbrev Float64 := ℚ

/-- Number of low bits that do not fit a 53-bit significand: `0` below `2^53`,
otherwise the bit length minus 53 (the first argument bounds the search; 64
covers every 64-bit integer). -/
def excessBits : Nat → Nat → Nat
  | 0, _ => 0
  | fuel + 1, a => if a < 2 ^ 53 then 0 else 1 + excessBits fuel (a / 2)

/-- Magnitude of `float64(±a)`: `a` rounded to the nearest integer with at most
53 significant bits, ties to the even significand. -/
def roundMagnitude (a : Nat) : Nat :=
  let e := excessBits 64 a
  let q := a / 2 ^ e
  let r := a % 2 ^ e
  let half := 2 ^ e / 2
  let m := if half < r ∨ (r = half ∧ 0 < e ∧ q % 2 = 1) then q + 1 else q
  m * 2 ^ e

/-- Go conversion `float64(x)` of a 64-bit integer `x`. -/
def float64 (x : Int) : Float64 :=
  ((if x < 0 then -(roundMagnitude x.natAbs : Int) else (roundMagnitude x.natAbs : Int)) : Int)

/-- Go `strings.TrimRight(s, cutset)`: `s` without its trailing characters that
occur in `cutset`. -/
def TrimRight (s cutset : String) : String :=
  ⟨s.data.rdropWhile (fun ch => decide (ch ∈ cutset.data))⟩

/-! ## `internal/immich/client.go` -/

/-- Nanoseconds in `time.Second`. -/
def Second : Nat := 1000000000

/-- Go `http.Client`, of which the source sets only `Timeout` (nanoseconds). -/
structure HttpClient where
  Timeout : Nat
  deriving DecidableEq, Repr

structure Client where
  baseURL : String
  apiKey : String
  httpClient : HttpClient
  deriving DecidableEq, Repr

def NewClient (baseURL apiKey : String) : Client :=
  -- Normalize trailing slash
  let baseURL := TrimRight baseURL "/"
  { baseURL := baseURL
    apiKey := apiKey
    httpClient := { Timeout := 10 * Second } }

structure JobCounts where
  Active : Int
  Waiting : Int
  Failed : Int
  Delayed : Int
  Paused : Int
  Completed : Int
  deriving DecidableEq, Repr

structure QueueStatus where
  IsActive : Bool
  IsPaused : Bool
  deriving DecidableEq, Repr

structure JobQueue where
  JobCounts : JobCounts
  QueueStatus : QueueStatus
  deriving DecidableEq, Repr

/-- A non-nil Go `map[string]JobQueue`: its entries, in the order in which one
`range` over it visits them, with no key twice. -/
structure QueueMap where
  entries : List (String × JobQueue)
  nodup : (entries.map Prod.fst).Nodup

/-- Go `JobsResponse`, a map from queue name to job queue status; `none` is the
nil map. -/
abbrev JobsResponse := Option QueueMap

/-- The key and value pairs visited by `for queueName, queue := range m`; a nil
map has none. -/
def JobsResponse.range : JobsResponse → List (String × JobQueue)
  | none => []
  | some m => m.entries

structure UserUsage where
  UserName : String
  Photos : Int
  Videos : Int
  Usage : Int
  deriving DecidableEq, Repr

structure StatisticsResponse where
  Photos : Int
  Videos : Int
  Usage : Int
  UsageByUser : List UserUsage
  deriving DecidableEq, Repr

structure StorageResponse where
  DiskSize : Int
  DiskUse : Int
  DiskAvailable : Int
  DiskUsagePercentage : Float64
  deriving DecidableEq, Repr

/-- Zero value of `StatisticsResponse` (`var result StatisticsResponse`). -/
def StatisticsResponse.zero : StatisticsResponse :=
  { Photos := 0, Videos := 0, Usage := 0, UsageByUser := [] }

/-- Zero value of `StorageResponse` (`var result StorageResponse`). -/
def StorageResponse.zero : StorageResponse :=
  { DiskSize := 0, DiskUse := 0, DiskAvailable := 0, DiskUsagePercentage := 0 }

/-- The errors `doRequest` builds with `fmt.Errorf`; the argument is the wrapped
cause, or the status code. -/
inductive Error where
  | creatingRequest (cause : String)
  | executingRequest (cause : String)
  | unexpectedStatusCode (code : Int)
  | decodingResponse (cause : String)
  deriving DecidableEq, Repr

structure Request where
  Method : String
  URL : String
  Header : List (String × String)
  deriving DecidableEq, Repr

structure Response where
  StatusCode : Int
  Body : String
  deriving DecidableEq, Repr

/-- Go `req.Header.Set(key, value)`: replaces what was stored under `key`.  Keys
are kept as written (`net/http` stores them in canonical case). -/
def Request.setHeader (req : Request) (key value : String) : Request :=
  { req with Header := req.Header.filter (fun kv => kv.1 ≠ key) ++ [(key, value)] }

/-- Go `http.StatusOK`. -/
def StatusOK : Int := 200

/-- What lies outside the repository during one call: `http.NewRequest`
(`requestError method url` is the error it returns, if any), the HTTP round
trip `httpClient.Do` (an error is a transport failure, a timeout included), and
`json.Decoder.Decode` into each of the three result types (given the body and
the value being decoded into, the value left behind and the error, if any). -/
structure Env where
  requestError : String → String → Option String
  Do : HttpClient → Request → Except String Response
  decodeJobs : String → JobsResponse → JobsResponse × Option String
  decodeStatistics : String → StatisticsResponse → StatisticsResponse × Option String
  decodeStorage : String → StorageResponse → StorageResponse × Option String

/-- The URL `doRequest` asks for: `c.baseURL+path`. -/
def requestURL (c : Client) (path : String) : String :=
  c.baseURL ++ path

/-- Go `doRequest(path, result)`: `result` is passed by pointer, so the value it
holds afterwards is returned together with the error. -/
def doRequest {T : Type} (c : Client) (env : Env)
    (decode : String → T → T × Option String) (path : String) (result : T) :
    T × Option Error :=
  match env.requestError "GET" (requestURL c path) with
  | some err => (result, some (Error.creatingRequest err))
  | none =>
    let req : Request := { Method := "GET", URL := requestURL c path, Header := [] }
    let req := req.setHeader "x-api-key" c.apiKey
    let req := req.setHeader "Accept" "application/json"
    match env.Do c.httpClient req with
    | Except.error err => (result, some (Error.executingRequest err))
    | Except.ok resp =>
      if resp.StatusCode ≠ StatusOK then
        (result, some (Error.unexpectedStatusCode resp.StatusCode))
      else
        match decode resp.Body result with
        | (result, some err) => (result, some (Error.decodingResponse err))
        | (result, none) => (result, none)

def GetJobs (c : Client) (env : Env) : JobsResponse × Option Error :=
  match doRequest c env env.decodeJobs "/api/jobs" (none : JobsResponse) with
  | (_, some err) => (none, some err)
  | (result, none) => (result, none)

def GetStatistics (c : Client) (env : Env) : Option StatisticsResponse × Option Error :=
  match doRequest c env env.decodeStatistics "/api/server/statistics" StatisticsResponse.zero with
  | (_, some err) => (none, some err)
  | (result, none) => (some result, none)

def GetStorage (c : Client) (env : Env) : Option StorageResponse × Option Error :=
  match doRequest c env env.decodeStorage "/api/server/storage" StorageResponse.zero with
  | (_, some err) => (none, some err)
  | (result, none) => (some result, none)

/-- Ping checks connectivity to Immich by calling the jobs endpoint. -/
def Ping (c : Client) (env : Env) : Option Error :=
  (GetJobs c env).2

/-! ## `internal/collector/collector.go` -/

/-- Go `prometheus.BuildFQName`: the non-empty parts joined by `_`, and the
empty string when `name` is empty. -/
def BuildFQName (ns subsystem name : String) : String :=
  if name = "" then ""
  else if ns ≠ "" ∧ subsystem ≠ "" then ns ++ "_" ++ subsystem ++ "_" ++ name
  else if ns ≠ "" then ns ++ "_" ++ name
  else if subsystem ≠ "" then subsystem ++ "_" ++ name
  else name

/-- Go `prometheus.Desc` as built by `prometheus.NewDesc(fqName, help,
variableLabels, nil)`. -/
structure Desc where
  fqName : String
  help : String
  variableLabels : List String
  deriving DecidableEq, Repr

def NewDesc (fqName help : String) (variableLabels : List String) : Desc :=
  { fqName := fqName, help := help, variableLabels := variableLabels }

inductive ValueType where
  | CounterValue
  | GaugeValue
  | UntypedValue
  deriving DecidableEq, Repr

/-- Go `prometheus.Metric` as built by `NewConstMetric`. -/
structure Metric where
  desc : Desc
  valType : ValueType
  val : Float64
  labelValues : List String
  deriving DecidableEq, Repr

/-- Go `prometheus.MustNewConstMetric`: panics when the number of label values
is not the number of variable labels of the descriptor. -/
def MustNewConstMetric (desc : Desc) (valueType : ValueType) (value : Float64)
    (labelValues : List String) : Except String Metric :=
  if labelValues.length ≠ desc.variableLabels.length then
    Except.error "inconsistent label cardinality"
  else
    Except.ok { desc := desc, valType := valueType, val := value, labelValues := labelValues }

/-- State of a channel that is being written: the values sent so far, or the
panic that stopped the writer. -/
abbrev Chan (α : Type) := Except String (List α)

/-- Go `ch <- v`, where evaluating `v` may panic. -/
def send {α : Type} (ch : Chan α) (v : Except String α) : Chan α :=
  match ch, v with
  | Except.error e, _ => Except.error e
  | Except.ok _, Except.error e => Except.error e
  | Except.ok sent, Except.ok x => Except.ok (sent ++ [x])

def metricNamespace : String := "immich"

structure ImmichCollector where
  client : Client
  -- Job metrics (per-queue)
  jobActive : Desc
  jobWaiting : Desc
  jobFailed : Desc
  jobDelayed : Desc
  jobPaused : Desc
  jobCompleted : Desc
  queueActive : Desc
  queuePaused : Desc
  -- Library metrics
  libraryPhotos : Desc
  libraryVideos : Desc
  libraryBytes : Desc
  userPhotos : Desc
  userVideos : Desc
  userBytes : Desc
  -- Storage metrics
  storageTotal : Desc
  storageUsed : Desc
  storageAvailable : Desc
  storageUsagePercent : Desc
  -- Exporter metrics
  scrapeDuration : Desc
  scrapeSuccess : Desc
  deriving DecidableEq, Repr

def New (client : Client) : ImmichCollector :=
  { client := client
    -- Job metrics
    jobActive := NewDesc (BuildFQName metricNamespace "job" "active")
      "Number of active jobs" ["queue"]
    jobWaiting := NewDesc (BuildFQName metricNamespace "job" "waiting")
      "Number of waiting jobs" ["queue"]
    jobFailed := NewDesc (BuildFQName metricNamespace "job" "failed")
      "Number of failed jobs" ["queue"]
    jobDelayed := NewDesc (BuildFQName metricNamespace "job" "delayed")
      "Number of delayed jobs" ["queue"]
    jobPaused := NewDesc (BuildFQName metricNamespace "job" "paused")
      "Number of paused jobs" ["queue"]
    jobCompleted := NewDesc (BuildFQName metricNamespace "job" "completed")
      "Number of completed jobs" ["queue"]
    queueActive := NewDesc (BuildFQName metricNamespace "queue" "active")
      "Whether queue is active (1=yes, 0=no)" ["queue"]
    queuePaused := NewDesc (BuildFQName metricNamespace "queue" "paused")
      "Whether queue is paused (1=yes, 0=no)" ["queue"]
    -- Library metrics
    libraryPhotos := NewDesc (BuildFQName metricNamespace "library" "photos")
      "Total photos" []
    libraryVideos := NewDesc (BuildFQName metricNamespace "library" "videos")
      "Total videos" []
    libraryBytes := NewDesc (BuildFQName metricNamespace "library" "bytes")
      "Total storage usage in bytes" []
    userPhotos := NewDesc (BuildFQName metricNamespace "user" "photos")
      "Photos per user" ["user"]
    userVideos := NewDesc (BuildFQName metricNamespace "user" "videos")
      "Videos per user" ["user"]
    userBytes := NewDesc (BuildFQName metricNamespace "user" "bytes")
      "Storage per user in bytes" ["user"]
    -- Storage metrics
    storageTotal := NewDesc (BuildFQName metricNamespace "storage" "total_bytes")
      "Total disk size" []
    storageUsed := NewDesc (BuildFQName metricNamespace "storage" "used_bytes")
      "Disk used" []
    storageAvailable := NewDesc (BuildFQName metricNamespace "storage" "available_bytes")
      "Disk available" []
    storageUsagePercent := NewDesc (BuildFQName metricNamespace "storage" "usage_percent")
      "Disk usage percentage" []
    -- Exporter metrics
    scrapeDuration := NewDesc (BuildFQName metricNamespace "scrape" "duration_seconds")
      "Time taken to scrape" []
    scrapeSuccess := NewDesc (BuildFQName metricNamespace "scrape" "success")
      "Whether scrape succeeded (1=yes, 0=no)" [] }

/-- Go `Describe`: the descriptors sent on the channel, in order. -/
def Describe (c : ImmichCollector) : List Desc :=
  [ c.jobActive, c.jobWaiting, c.jobFailed, c.jobDelayed, c.jobPaused, c.jobCompleted,
    c.queueActive, c.queuePaused,
    c.libraryPhotos, c.libraryVideos, c.libraryBytes,
    c.userPhotos, c.userVideos, c.userBytes,
    c.storageTotal, c.storageUsed, c.storageAvailable, c.storageUsagePercent,
    c.scrapeDuration, c.scrapeSuccess ]

def boolToFloat (b : Bool) : Float64 :=
  if b then 1 else 0

open ValueType in
/-- Go `Collect`: the three fetches write distinct variables and are joined by
`wg.Wait()` before anything is read, so they are evaluated here one after the
other; `duration` is the value of `time.Since(start).Seconds()`.  The result is
the channel after the call. -/
def Collect (c : ImmichCollector) (env : Env) (duration : Float64) : Chan Metric :=
  let ch : Chan Metric := Except.ok []
  let success : Float64 := 1.0
  -- Fetch all APIs in parallel
  let (jobsResp, jobsErr) := GetJobs c.client env
  let (statsResp, statsErr) := GetStatistics c.client env
  let (storageResp, storageErr) := GetStorage c.client env
  -- Process job metrics
  let (ch, success) :=
    if jobsErr ≠ none then
      (ch, (0 : Float64))
    else
      (jobsResp.range.foldl (fun ch (kv : String × JobQueue) =>
        let queueName := kv.1
        let queue := kv.2
        let ch := send ch (MustNewConstMetric c.jobActive GaugeValue (float64 queue.JobCounts.Active) [queueName])
        let ch := send ch (MustNewConstMetric c.jobWaiting GaugeValue (float64 queue.JobCounts.Waiting) [queueName])
        let ch := send ch (MustNewConstMetric c.jobFailed GaugeValue (float64 queue.JobCounts.Failed) [queueName])
        let ch := send ch (MustNewConstMetric c.jobDelayed GaugeValue (float64 queue.JobCounts.Delayed) [queueName])
        let ch := send ch (MustNewConstMetric c.jobPaused GaugeValue (float64 queue.JobCounts.Paused) [queueName])
        let ch := send ch (MustNewConstMetric c.jobCompleted GaugeValue (float64 queue.JobCounts.Completed) [queueName])
        let ch := send ch (MustNewConstMetric c.queueActive GaugeValue (boolToFloat queue.QueueStatus.IsActive) [queueName])
        let ch := send ch (MustNewConstMetric c.queuePaused GaugeValue (boolToFloat queue.QueueStatus.IsPaused) [queueName])
        ch) ch, success)
  -- Process statistics metrics
  let (ch, success) :=
    if statsErr ≠ none then
      (ch, (0 : Float64))
    else
      match statsResp with
      | none => (Except.error "nil pointer dereference", success)
      | some statsResp =>
        let ch := send ch (MustNewConstMetric c.libraryPhotos GaugeValue (float64 statsResp.Photos) [])
        let ch := send ch (MustNewConstMetric c.libraryVideos GaugeValue (float64 statsResp.Videos) [])
        let ch := send ch (MustNewConstMetric c.libraryBytes GaugeValue (float64 statsResp.Usage) [])
        (statsResp.UsageByUser.foldl (fun ch (user : UserUsage) =>
          let ch := send ch (MustNewConstMetric c.userPhotos GaugeValue (float64 user.Photos) [user.UserName])
          let ch := send ch (MustNewConstMetric c.userVideos GaugeValue (float64 user.Videos) [user.UserName])
          let ch := send ch (MustNewConstMetric c.userBytes GaugeValue (float64 user.Usage) [user.UserName])
          ch) ch, success)
  -- Process storage metrics
  let (ch, success) :=
    if storageErr ≠ none then
      (ch, (0 : Float64))
    else
      match storageResp with
      | none => (Except.error "nil pointer dereference", success)
      | some storageResp =>
        let ch := send ch (MustNewConstMetric c.storageTotal GaugeValue (float64 storageResp.DiskSize) [])
        let ch := send ch (MustNewConstMetric c.storageUsed GaugeValue (float64 storageResp.DiskUse) [])
        let ch := send ch (MustNewConstMetric c.storageAvailable GaugeValue (float64 storageResp.DiskAvailable) [])
        let ch := send ch (MustNewConstMetric c.storageUsagePercent GaugeValue storageResp.DiskUsagePercentage [])
        (ch, success)
  -- Exporter metrics
  let ch := send ch (MustNewConstMetric c.scrapeDuration GaugeValue duration [])
  let ch := send ch (MustNewConstMetric c.scrapeSuccess GaugeValue success [])
  ch

/-! ## Descriptor families and the metrics each branch sends -/

/-- The eight descriptors labelled by queue. -/
def jobFamilies (c : ImmichCollector) : List Desc :=
  [c.jobActive, c.jobWaiting, c.jobFailed, c.jobDelayed, c.jobPaused, c.jobCompleted,
    c.queueActive, c.queuePaused]

/-- The six descriptors fed by the statistics response. -/
def statisticsFamilies (c : ImmichCollector) : List Desc :=
  [c.libraryPhotos, c.libraryVideos, c.libraryBytes, c.userPhotos, c.userVideos, c.userBytes]

/-- The four descriptors fed by the storage response. -/
def storageFamilies (c : ImmichCollector) : List Desc :=
  [c.storageTotal, c.storageUsed, c.storageAvailable, c.storageUsagePercent]

/-- The two descriptors of the exporter itself. -/
def selfFamilies (c : ImmichCollector) : List Desc :=
  [c.scrapeDuration, c.scrapeSuccess]

/-- The metrics on a channel that belong to one of the given descriptors, in the
order sent; none when the writer panicked. -/
def observations (families : List Desc) : Chan Metric → List Metric
  | Except.ok sent => sent.filter (fun m => decide (m.desc ∈ families))
  | Except.error _ => []


open ValueType in
/-- The eight metrics the loop body of `Collect` sends for one queue. -/
def queueMetrics (c : ImmichCollector) (kv : String × JobQueue) : List Metric :=
  [ ⟨c.jobActive, GaugeValue, float64 kv.2.JobCounts.Active, [kv.1]⟩,
    ⟨c.jobWaiting, GaugeValue, float64 kv.2.JobCounts.Waiting, [kv.1]⟩,
    ⟨c.jobFailed, GaugeValue, float64 kv.2.JobCounts.Failed, [kv.1]⟩,
    ⟨c.jobDelayed, GaugeValue, float64 kv.2.JobCounts.Delayed, [kv.1]⟩,
    ⟨c.jobPaused, GaugeValue, float64 kv.2.JobCounts.Paused, [kv.1]⟩,
    ⟨c.jobCompleted, GaugeValue, float64 kv.2.JobCounts.Completed, [kv.1]⟩,
    ⟨c.queueActive, GaugeValue, boolToFloat kv.2.QueueStatus.IsActive, [kv.1]⟩,
    ⟨c.queuePaused, GaugeValue, boolToFloat kv.2.QueueStatus.IsPaused, [kv.1]⟩ ]

open ValueType in
/-- The three metrics the loop body of `Collect` sends for one user record. -/
def userMetrics (c : ImmichCollector) (user : UserUsage) : List Metric :=
  [ ⟨c.userPhotos, GaugeValue, float64 user.Photos, [user.UserName]⟩,
    ⟨c.userVideos, GaugeValue, float64 user.Videos, [user.UserName]⟩,
    ⟨c.userBytes, GaugeValue, float64 user.Usage, [user.UserName]⟩ ]

open ValueType in
/-- The metrics `Collect` sends for a statistics response: three aggregates, then
the user records in the order of the response. -/
def statisticsMetrics (c : ImmichCollector) (s : StatisticsResponse) : List Metric :=
  [ ⟨c.libraryPhotos, GaugeValue, float64 s.Photos, []⟩,
    ⟨c.libraryVideos, GaugeValue, float64 s.Videos, []⟩,
    ⟨c.libraryBytes, GaugeValue, float64 s.Usage, []⟩ ] ++ s.UsageByUser.flatMap (userMetrics c)

open ValueType in
/-- The four metrics `Collect` sends for a storage response. -/
def storageMetrics (c : ImmichCollector) (r : StorageResponse) : List Metric :=
  [ ⟨c.storageTotal, GaugeValue, float64 r.DiskSize, []⟩,
    ⟨c.storageUsed, GaugeValue, float64 r.DiskUse, []⟩,
    ⟨c.storageAvailable, GaugeValue, float64 r.DiskAvailable, []⟩,
    ⟨c.storageUsagePercent, GaugeValue, r.DiskUsagePercentage, []⟩ ]

/-- What the jobs branch of `Collect` sends, given what `GetJobs` returned. -/
def jobsPart (c : ImmichCollector) (r : JobsResponse × Option Error) : List Metric :=
  if r.2 = none then r.1.range.flatMap (queueMetrics c) else []

/-- What the statistics branch of `Collect` sends, given what `GetStatistics`
returned. -/
def statisticsPart (c : ImmichCollector) (r : Option StatisticsResponse × Option Error) : List Metric :=
  match r with
  | (some s, none) => statisticsMetrics c s
  | _ => []

/-- What the storage branch of `Collect` sends, given what `GetStorage` returned. -/
def storagePart (c : ImmichCollector) (r : Option StorageResponse × Option Error) : List Metric :=
  match r with
  | (some s, none) => storageMetrics c s
  | _ => []

/-- Value of the success flag: 1 when none of the three fetches returned an
error, 0 otherwise. -/
def successValue (client : Client) (env : Env) : Float64 :=
  if (GetJobs client env).2 = none ∧ (GetStatistics client env).2 = none ∧
    (GetStorage client env).2 = none then 1 else 0


/-- The request `doRequest` hands to `httpClient.Do`. -/
def sentRequest (c : Client) (path : String) : Request :=
  { Method := "GET"
    URL := c.baseURL ++ path
    Header := [("x-api-key", c.apiKey), ("Accept", "application/json")] }

/-- A run of `k` path separators. -/
def slashes (k : Nat) : String :=
  ⟨List.replicate k '/'⟩

/-! ## Observations per resource -/

/-- The job and queue observations one run of `Collect` emits. -/
def jobObservations (client : Client) (env : Env) (duration : Float64) : List Metric :=
  observations (jobFamilies (New client)) (Collect (New client) env duration)

/-- The library and user observations one run of `Collect` emits. -/
def statisticsObservations (client : Client) (env : Env) (duration : Float64) : List Metric :=
  observations (statisticsFamilies (New client)) (Collect (New client) env duration)

/-- The storage observations one run of `Collect` emits. -/
def storageObservations (client : Client) (env : Env) (duration : Float64) : List Metric :=
  observations (storageFamilies (New client)) (Collect (New client) env duration)

/-- The observations about the exporter itself one run of `Collect` emits. -/
def selfObservations (client : Client) (env : Env) (duration : Float64) : List Metric :=
  observations (selfFamilies (New client)) (Collect (New client) env duration)

/-- What a fetch owes its caller.  `out` is the pair the fetch returned, `decode`
the decoder for its body, `zero` the value decoded into, `wrap` how the decoded
value is returned and `missing` the nil result.
* No error is returned exactly when the request could be built, the round trip
  gave a response, its status is 200 and the body decoded.
* In that case the decoded value is returned.
* A returned error comes with the nil result.
* The error says which step failed: building the request, the round trip, the
  status (whatever the body), or decoding. -/
def FetchContract {T R : Type} (c : Client) (env : Env)
    (decode : String → T → T × Option String) (path : String) (zero : T)
    (wrap : T → R) (missing : R) (out : R × Option Error) : Prop :=
  (out.2 = none ↔
    ∃ resp, env.requestError "GET" (c.baseURL ++ path) = none ∧
      env.Do c.httpClient (sentRequest c path) = Except.ok resp ∧
      resp.StatusCode = 200 ∧ (decode resp.Body zero).2 = none) ∧
  (∀ resp, env.requestError "GET" (c.baseURL ++ path) = none →
    env.Do c.httpClient (sentRequest c path) = Except.ok resp →
    resp.StatusCode = 200 → (decode resp.Body zero).2 = none →
    out = (wrap (decode resp.Body zero).1, none)) ∧
  (out.2 ≠ none → out.1 = missing) ∧
  (∀ e, env.requestError "GET" (c.baseURL ++ path) = some e →
    out = (missing, some (Error.creatingRequest e))) ∧
  (∀ e, env.requestError "GET" (c.baseURL ++ path) = none →
    env.Do c.httpClient (sentRequest c path) = Except.error e →
    out = (missing, some (Error.executingRequest e))) ∧
  (∀ resp, env.requestError "GET" (c.baseURL ++ path) = none →
    env.Do c.httpClient (sentRequest c path) = Except.ok resp →
    resp.StatusCode ≠ 200 →
    out = (missing, some (Error.unexpectedStatusCode resp.StatusCode))) ∧
  (∀ resp e, env.requestError "GET" (c.baseURL ++ path) = none →
    env.Do c.httpClient (sentRequest c path) = Except.ok resp →
    resp.StatusCode = 200 → (decode resp.Body zero).2 = some e →
    out = (missing, some (Error.decodingResponse e)))

/-! ## Concrete environments -/

/-- An upstream that answers every request with status 200 and whose bodies
decode to the given values, or fail to decode with the given errors. -/
def envOf (jobs : JobsResponse × Option String)
    (stats : StatisticsResponse × Option String)
    (storage : StorageResponse × Option String) : Env :=
  { requestError := fun _ _ => none
    Do := fun _ _ => Except.ok { StatusCode := 200, Body := "" }
    decodeJobs := fun _ _ => jobs
    decodeStatistics := fun _ _ => stats
    decodeStorage := fun _ _ => storage }

/-- An upstream that answers every request with the given status and an empty
body, which every decoder accepts without touching the result. -/
def statusEnv (code : Int) : Env :=
  { requestError := fun _ _ => none
    Do := fun _ _ => Except.ok { StatusCode := code, Body := "" }
    decodeJobs := fun _ r => (r, none)
    decodeStatistics := fun _ r => (r, none)
    decodeStorage := fun _ r => (r, none) }

/-- An upstream that cannot be reached. -/
def unreachableEnv : Env :=
  { requestError := fun _ _ => none
    Do := fun _ _ => Except.error "connection refused"
    decodeJobs := fun _ r => (r, none)
    decodeStatistics := fun _ r => (r, none)
    decodeStorage := fun _ r => (r, none) }

/-- The client of the collector tests. -/
def testClient : Client :=
  NewClient "http://localhost:2283/" "test-key"

/-- The jobs response of `TestCollector_Collect`. -/
def testJobs : QueueMap :=
  { entries :=
      [ ("thumbnailGeneration",
          { JobCounts := { Active := 3, Waiting := 10, Failed := 2, Delayed := 1, Paused := 0,
                           Completed := 0 }
            QueueStatus := { IsActive := true, IsPaused := false } }) ]
    nodup := by decide }

/-- The statistics response of `TestCollector_Collect`. -/
def testStatistics : StatisticsResponse :=
  { Photos := 5000, Videos := 1000, Usage := 100000000000
    UsageByUser := [ { UserName := "alice", Photos := 5000, Videos := 1000, Usage := 100000000000 } ] }

/-- The storage response of `TestCollector_Collect`. -/
def testStorage : StorageResponse :=
  { DiskSize := 1000000000000, DiskUse := 500000000000, DiskAvailable := 500000000000
    DiskUsagePercentage := 0 }

/-- The upstream of `TestCollector_Collect`. -/
def testEnv : Env :=
  envOf (some testJobs, none) (testStatistics, none) (testStorage, none)

/-- An upstream whose three fetches succeed or fail as the three flags say
(`true` is success); a failure is a body that does not decode. -/
def outcomeEnv (jobsOk statsOk storageOk : Bool) : Env :=
  envOf (some testJobs, if jobsOk then none else some "unexpected end of JSON input")
    (testStatistics, if statsOk then none else some "unexpected end of JSON input")
    (testStorage, if storageOk then none else some "unexpected end of JSON input")

/-- A jobs response with a count above `2^53`. -/
def bigJobs : QueueMap :=
  { entries :=
      [ ("thumbnailGeneration",
          { JobCounts := { Active := 9007199254740993, Waiting := 10, Failed := 2, Delayed := 1,
                           Paused := 0, Completed := 0 }
            QueueStatus := { IsActive := true, IsPaused := false } }) ]
    nodup := by decide }

/-- A statistics response with a usage above `2^53` bytes. -/
def bigStatistics : StatisticsResponse :=
  { Photos := 5000, Videos := 1000, Usage := 9007199254740993
    UsageByUser := [ { UserName := "alice", Photos := 5000, Videos := 1000, Usage := 9007199254740993 } ] }

/-- A storage response with a disk size above `2^53` bytes. -/
def bigStorage : StorageResponse :=
  { DiskSize := 9007199254740993, DiskUse := 500000000000, DiskAvailable := 500000000000
    DiskUsagePercentage := 0 }

/-- An upstream serving the three responses above. -/
def bigEnv : Env :=
  envOf (some bigJobs, none) (bigStatistics, none) (bigStorage, none)

/-- An upstream that answers 401 to every request, with a body that would decode
to the test data. -/
def unauthorizedEnv : Env :=
  { requestError := fun _ _ => none
    Do := fun _ _ => Except.ok { StatusCode := 401, Body := "" }
    decodeJobs := fun _ _ => (some testJobs, none)
    decodeStatistics := fun _ _ => (testStatistics, none)
    decodeStorage := fun _ _ => (testStorage, none) }

/-- An upstream whose bodies are cut short: each decoder fills in what it read
before it fails. -/
def truncatedEnv : Env :=
  envOf (some testJobs, some "unexpected EOF") (testStatistics, some "unexpected EOF")
    (testStorage, some "unexpected EOF")

/-- What identifies an observation within a snapshot: its metric family and its
label values. -/
def metricKey (m : Metric) : Desc × List String :=
  (m.desc, m.labelValues)

/-- A statistics response with two records for the same user name. -/
def dupStatistics : StatisticsResponse :=
  { Photos := 5000, Videos := 1000, Usage := 100000000000
    UsageByUser :=
      [ { UserName := "alice", Photos := 3000, Videos := 600, Usage := 60000000000 },
        { UserName := "alice", Photos := 2000, Videos := 400, Usage := 40000000000 } ] }

/-- An upstream serving that statistics response. -/
def dupEnv : Env :=
  envOf (some testJobs, none) (dupStatistics, none) (testStorage, none)

/-- The descriptors labelled by user. -/
def userFamilies (c : ImmichCollector) : List Desc :=
  [c.userPhotos, c.userVideos, c.userBytes]

/-! ## Theorems -/

open ValueType

/-! ### Shape of what the fetches return -/

theorem GetStatistics_cases (c : Client) (env : Env) :
    (∃ s, GetStatistics c env = (some s, none)) ∨ (∃ e, GetStatistics c env = (none, some e)) := by
  unfold GetStatistics
  rcases doRequest c env env.decodeStatistics "/api/server/statistics" StatisticsResponse.zero with ⟨r, _ | e⟩
  · exact Or.inl ⟨r, rfl⟩
  · exact Or.inr ⟨e, rfl⟩

theorem GetStorage_cases (c : Client) (env : Env) :
    (∃ s, GetStorage c env = (some s, none)) ∨ (∃ e, GetStorage c env = (none, some e)) := by
  unfold GetStorage
  rcases doRequest c env env.decodeStorage "/api/server/storage" StorageResponse.zero with ⟨r, _ | e⟩
  · exact Or.inl ⟨r, rfl⟩
  · exact Or.inr ⟨e, rfl⟩

theorem GetJobs_cases (c : Client) (env : Env) :
    (∃ s, GetJobs c env = (s, none)) ∨ (∃ e, GetJobs c env = (none, some e)) := by
  unfold GetJobs
  rcases doRequest c env env.decodeJobs "/api/jobs" (none : JobsResponse) with ⟨r, _ | e⟩
  · exact Or.inl ⟨r, rfl⟩
  · exact Or.inr ⟨e, rfl⟩



theorem send_metric (sent : List Metric) (d : Desc) (t : ValueType) (v : Float64)
    (lv : List String) (h : lv.length = d.variableLabels.length) :
    send (Except.ok sent) (MustNewConstMetric d t v lv) = Except.ok (sent ++ [⟨d, t, v, lv⟩]) := by
  simp [send, MustNewConstMetric, h]

theorem New_jobActive_labels (client : Client) :
    (New client).jobActive.variableLabels = ["queue"] := rfl

theorem New_jobWaiting_labels (client : Client) :
    (New client).jobWaiting.variableLabels = ["queue"] := rfl

theorem New_jobFailed_labels (client : Client) :
    (New client).jobFailed.variableLabels = ["queue"] := rfl

theorem New_jobDelayed_labels (client : Client) :
    (New client).jobDelayed.variableLabels = ["queue"] := rfl

theorem New_jobPaused_labels (client : Client) :
    (New client).jobPaused.variableLabels = ["queue"] := rfl

theorem New_jobCompleted_labels (client : Client) :
    (New client).jobCompleted.variableLabels = ["queue"] := rfl

theorem New_queueActive_labels (client : Client) :
    (New client).queueActive.variableLabels = ["queue"] := rfl

theorem New_queuePaused_labels (client : Client) :
    (New client).queuePaused.variableLabels = ["queue"] := rfl

theorem New_libraryPhotos_labels (client : Client) :
    (New client).libraryPhotos.variableLabels = [] := rfl

theorem New_libraryVideos_labels (client : Client) :
    (New client).libraryVideos.variableLabels = [] := rfl

theorem New_libraryBytes_labels (client : Client) :
    (New client).libraryBytes.variableLabels = [] := rfl

theorem New_userPhotos_labels (client : Client) :
    (New client).userPhotos.variableLabels = ["user"] := rfl

theorem New_userVideos_labels (client : Client) :
    (New client).userVideos.variableLabels = ["user"] := rfl

theorem New_userBytes_labels (client : Client) :
    (New client).userBytes.variableLabels = ["user"] := rfl

theorem New_storageTotal_labels (client : Client) :
    (New client).storageTotal.variableLabels = [] := rfl

theorem New_storageUsed_labels (client : Client) :
    (New client).storageUsed.variableLabels = [] := rfl

theorem New_storageAvailable_labels (client : Client) :
    (New client).storageAvailable.variableLabels = [] := rfl

theorem New_storageUsagePercent_labels (client : Client) :
    (New client).storageUsagePercent.variableLabels = [] := rfl

theorem New_scrapeDuration_labels (client : Client) :
    (New client).scrapeDuration.variableLabels = [] := rfl

theorem New_scrapeSuccess_labels (client : Client) :
    (New client).scrapeSuccess.variableLabels = [] := rfl


theorem foldl_queues (client : Client) (l : List (String × JobQueue)) (pre : List Metric) :
    l.foldl (fun ch (kv : String × JobQueue) =>
        send (send (send (send (send (send (send (send ch
          (MustNewConstMetric (New client).jobActive GaugeValue (float64 kv.2.JobCounts.Active) [kv.1]))
          (MustNewConstMetric (New client).jobWaiting GaugeValue (float64 kv.2.JobCounts.Waiting) [kv.1]))
          (MustNewConstMetric (New client).jobFailed GaugeValue (float64 kv.2.JobCounts.Failed) [kv.1]))
          (MustNewConstMetric (New client).jobDelayed GaugeValue (float64 kv.2.JobCounts.Delayed) [kv.1]))
          (MustNewConstMetric (New client).jobPaused GaugeValue (float64 kv.2.JobCounts.Paused) [kv.1]))
          (MustNewConstMetric (New client).jobCompleted GaugeValue (float64 kv.2.JobCounts.Completed) [kv.1]))
          (MustNewConstMetric (New client).queueActive GaugeValue (boolToFloat kv.2.QueueStatus.IsActive) [kv.1]))
          (MustNewConstMetric (New client).queuePaused GaugeValue (boolToFloat kv.2.QueueStatus.IsPaused) [kv.1]))
        (Except.ok pre)
      = Except.ok (pre ++ l.flatMap (queueMetrics (New client))) := by
  induction l generalizing pre with
  | nil => simp
  | cons kv t ih =>
    simp only [List.foldl_cons, List.flatMap_cons]
    rw [send_metric _ _ _ _ _ (by rfl), send_metric _ _ _ _ _ (by rfl), send_metric _ _ _ _ _ (by rfl),
      send_metric _ _ _ _ _ (by rfl), send_metric _ _ _ _ _ (by rfl), send_metric _ _ _ _ _ (by rfl),
      send_metric _ _ _ _ _ (by rfl), send_metric _ _ _ _ _ (by rfl), ih]
    simp [queueMetrics]

theorem foldl_users (client : Client) (l : List UserUsage) (pre : List Metric) :
    l.foldl (fun ch (user : UserUsage) =>
        send (send (send ch
          (MustNewConstMetric (New client).userPhotos GaugeValue (float64 user.Photos) [user.UserName]))
          (MustNewConstMetric (New client).userVideos GaugeValue (float64 user.Videos) [user.UserName]))
          (MustNewConstMetric (New client).userBytes GaugeValue (float64 user.Usage) [user.UserName]))
        (Except.ok pre)
      = Except.ok (pre ++ l.flatMap (userMetrics (New client))) := by
  induction l generalizing pre with
  | nil => simp
  | cons u t ih =>
    simp only [List.foldl_cons, List.flatMap_cons]
    rw [send_metric _ _ _ _ _ (by rfl), send_metric _ _ _ _ _ (by rfl), send_metric _ _ _ _ _ (by rfl), ih]
    simp [userMetrics]

/-- The channel after `Collect`. -/
theorem Collect_New (client : Client) (env : Env) (duration : Float64) :
    Collect (New client) env duration = Except.ok
      (jobsPart (New client) (GetJobs client env) ++
        statisticsPart (New client) (GetStatistics client env) ++
        storagePart (New client) (GetStorage client env) ++
        [ ⟨(New client).scrapeDuration, GaugeValue, duration, []⟩,
          ⟨(New client).scrapeSuccess, GaugeValue, successValue client env, []⟩ ]) := by
  have hc : (New client).client = client := rfl
  unfold Collect successValue
  simp only [hc]
  rcases GetJobs_cases client env with ⟨j, hj⟩ | ⟨ej, hj⟩ <;>
  rcases GetStatistics_cases client env with ⟨s, hs⟩ | ⟨es, hs⟩ <;>
  rcases GetStorage_cases client env with ⟨r, hr⟩ | ⟨er, hr⟩ <;>
  · rw [hj, hs, hr]
    simp [foldl_queues, foldl_users, jobsPart, statisticsPart, storagePart, statisticsMetrics,
      storageMetrics, send_metric, New_jobActive_labels, New_jobWaiting_labels, New_jobFailed_labels, New_jobDelayed_labels, New_jobPaused_labels, New_jobCompleted_labels, New_queueActive_labels, New_queuePaused_labels, New_libraryPhotos_labels, New_libraryVideos_labels, New_libraryBytes_labels, New_userPhotos_labels, New_userVideos_labels, New_userBytes_labels, New_storageTotal_labels, New_storageUsed_labels, New_storageAvailable_labels, New_storageUsagePercent_labels, New_scrapeDuration_labels, New_scrapeSuccess_labels] <;> norm_num

theorem Describe_fqNames (client : Client) :
    (Describe (New client)).map Desc.fqName =
      [ "immich_job_active", "immich_job_waiting", "immich_job_failed", "immich_job_delayed",
        "immich_job_paused", "immich_job_completed", "immich_queue_active", "immich_queue_paused",
        "immich_library_photos", "immich_library_videos", "immich_library_bytes",
        "immich_user_photos", "immich_user_videos", "immich_user_bytes",
        "immich_storage_total_bytes", "immich_storage_used_bytes",
        "immich_storage_available_bytes", "immich_storage_usage_percent",
        "immich_scrape_duration_seconds", "immich_scrape_success" ] := by
  rfl

theorem Describe_nodup (client : Client) : (Describe (New client)).Nodup := by
  apply List.Nodup.of_map Desc.fqName
  rw [Describe_fqNames]
  decide

theorem Describe_eq_append (c : ImmichCollector) :
    Describe c = jobFamilies c ++ (statisticsFamilies c ++ (storageFamilies c ++ selfFamilies c)) := by
  rfl

/-! ### The observations of each resource -/

theorem jobsPart_desc (c : ImmichCollector) (r : JobsResponse × Option Error) :
    ∀ m ∈ jobsPart c r, m.desc ∈ jobFamilies c := by
  intro m hm
  unfold jobsPart at hm
  split at hm
  · simp only [List.mem_flatMap, queueMetrics] at hm
    obtain ⟨kv, _, h⟩ := hm
    simp only [List.mem_cons, List.mem_singleton, List.not_mem_nil, or_false] at h
    rcases h with h | h | h | h | h | h | h | h <;> subst h <;> simp [jobFamilies]
  · simp at hm

theorem statisticsPart_desc (c : ImmichCollector) (r : Option StatisticsResponse × Option Error) :
    ∀ m ∈ statisticsPart c r, m.desc ∈ statisticsFamilies c := by
  intro m hm
  unfold statisticsPart at hm
  split at hm
  · simp only [statisticsMetrics, List.mem_append, List.mem_flatMap, userMetrics, List.mem_cons,
      List.mem_singleton, List.not_mem_nil, or_false] at hm
    rcases hm with (h | h | h) | ⟨u, _, h | h | h⟩ <;> subst h <;> simp [statisticsFamilies]
  · simp at hm

theorem storagePart_desc (c : ImmichCollector) (r : Option StorageResponse × Option Error) :
    ∀ m ∈ storagePart c r, m.desc ∈ storageFamilies c := by
  intro m hm
  unfold storagePart at hm
  split at hm
  · simp only [storageMetrics, List.mem_cons, List.mem_singleton, List.not_mem_nil, or_false] at hm
    rcases hm with h | h | h | h <;> subst h <;> simp [storageFamilies]
  · simp at hm

/-- A descriptor of the catalogue lies in exactly one of the four groups. -/
theorem families_disjoint (client : Client) :
    (∀ d ∈ jobFamilies (New client), d ∉ statisticsFamilies (New client) ∧
      d ∉ storageFamilies (New client) ∧ d ∉ selfFamilies (New client)) ∧
    (∀ d ∈ statisticsFamilies (New client), d ∉ jobFamilies (New client) ∧
      d ∉ storageFamilies (New client) ∧ d ∉ selfFamilies (New client)) ∧
    (∀ d ∈ storageFamilies (New client), d ∉ jobFamilies (New client) ∧
      d ∉ statisticsFamilies (New client) ∧ d ∉ selfFamilies (New client)) ∧
    (∀ d ∈ selfFamilies (New client), d ∉ jobFamilies (New client) ∧
      d ∉ statisticsFamilies (New client) ∧ d ∉ storageFamilies (New client)) := by
  have h := Describe_nodup client
  rw [Describe_eq_append] at h
  simp only [List.nodup_append, List.Disjoint, List.mem_append] at h
  obtain ⟨_, ⟨_, ⟨_, _, h3⟩, h2⟩, h1⟩ := h
  refine ⟨fun d hd => ⟨fun h => h1 hd (Or.inl h), fun h => h1 hd (Or.inr (Or.inl h)),
      fun h => h1 hd (Or.inr (Or.inr h))⟩,
    fun d hd => ⟨fun h => h1 h (Or.inl hd), fun h => h2 hd (Or.inl h), fun h => h2 hd (Or.inr h)⟩,
    fun d hd => ⟨fun h => h1 h (Or.inr (Or.inl hd)), fun h => h2 h (Or.inl hd), fun h => h3 hd h⟩,
    fun d hd => ⟨fun h => h1 h (Or.inr (Or.inr hd)), fun h => h2 h (Or.inr hd), fun h => h3 h hd⟩⟩

theorem filter_none (part : List Metric) (inside outside : List Desc)
    (hp : ∀ m ∈ part, m.desc ∈ inside) (hd : ∀ d ∈ inside, d ∉ outside) :
    part.filter (fun m => decide (m.desc ∈ outside)) = [] := by
  rw [List.filter_eq_nil_iff]
  intro m hm
  simpa using hd _ (hp m hm)

theorem filter_all (part : List Metric) (inside : List Desc)
    (hp : ∀ m ∈ part, m.desc ∈ inside) :
    part.filter (fun m => decide (m.desc ∈ inside)) = part := by
  rw [List.filter_eq_self]
  intro m hm
  simpa using hp m hm

theorem selfPart_desc (c : ImmichCollector) (duration success : Float64) :
    ∀ m ∈ [ (⟨c.scrapeDuration, GaugeValue, duration, []⟩ : Metric),
        ⟨c.scrapeSuccess, GaugeValue, success, []⟩ ], m.desc ∈ selfFamilies c := by
  intro m hm
  simp only [List.mem_cons, List.mem_singleton, List.not_mem_nil, or_false] at hm
  rcases hm with h | h <;> subst h <;> simp [selfFamilies]

theorem observations_jobs (client : Client) (env : Env) (duration : Float64) :
    observations (jobFamilies (New client)) (Collect (New client) env duration) =
      jobsPart (New client) (GetJobs client env) := by
  obtain ⟨_, h2, h3, h4⟩ := families_disjoint client
  rw [Collect_New]
  simp only [observations, List.filter_append]
  rw [filter_all _ _ (jobsPart_desc _ _),
    filter_none _ _ _ (statisticsPart_desc _ _) (fun d hd => (h2 d hd).1),
    filter_none _ _ _ (storagePart_desc _ _) (fun d hd => (h3 d hd).1),
    filter_none _ _ _ (selfPart_desc _ _ _) (fun d hd => (h4 d hd).1)]
  simp

theorem observations_statistics (client : Client) (env : Env) (duration : Float64) :
    observations (statisticsFamilies (New client)) (Collect (New client) env duration) =
      statisticsPart (New client) (GetStatistics client env) := by
  obtain ⟨h1, _, h3, h4⟩ := families_disjoint client
  rw [Collect_New]
  simp only [observations, List.filter_append]
  rw [filter_all _ _ (statisticsPart_desc _ _),
    filter_none _ _ _ (jobsPart_desc _ _) (fun d hd => (h1 d hd).1),
    filter_none _ _ _ (storagePart_desc _ _) (fun d hd => (h3 d hd).2.1),
    filter_none _ _ _ (selfPart_desc _ _ _) (fun d hd => (h4 d hd).2.1)]
  simp

theorem observations_storage (client : Client) (env : Env) (duration : Float64) :
    observations (storageFamilies (New client)) (Collect (New client) env duration) =
      storagePart (New client) (GetStorage client env) := by
  obtain ⟨h1, h2, _, h4⟩ := families_disjoint client
  rw [Collect_New]
  simp only [observations, List.filter_append]
  rw [filter_all _ _ (storagePart_desc _ _),
    filter_none _ _ _ (jobsPart_desc _ _) (fun d hd => (h1 d hd).2.1),
    filter_none _ _ _ (statisticsPart_desc _ _) (fun d hd => (h2 d hd).2.1),
    filter_none _ _ _ (selfPart_desc _ _ _) (fun d hd => (h4 d hd).2.2)]
  simp

theorem observations_self (client : Client) (env : Env) (duration : Float64) :
    observations (selfFamilies (New client)) (Collect (New client) env duration) =
      [ ⟨(New client).scrapeDuration, GaugeValue, duration, []⟩,
        ⟨(New client).scrapeSuccess, GaugeValue, successValue client env, []⟩ ] := by
  obtain ⟨h1, h2, h3, _⟩ := families_disjoint client
  rw [Collect_New]
  simp only [observations, List.filter_append]
  rw [filter_all _ _ (selfPart_desc _ _ _),
    filter_none _ _ _ (jobsPart_desc _ _) (fun d hd => (h1 d hd).2.2),
    filter_none _ _ _ (statisticsPart_desc _ _) (fun d hd => (h2 d hd).2.2),
    filter_none _ _ _ (storagePart_desc _ _) (fun d hd => (h3 d hd).2.2)]
  simp

/-! ### Integer to `float64` -/

theorem excessBits_small (a : Nat) (h : a < 2 ^ 53) : excessBits 64 a = 0 := by
  have h2 : a < 9007199254740992 := by norm_num at h; exact h
  simp [excessBits, h2]

theorem roundMagnitude_exact (a : Nat) (h : a ≤ 2 ^ 53) : roundMagnitude a = a := by
  rcases Nat.lt_or_eq_of_le h with h | h
  · simp [roundMagnitude, excessBits_small a h, Nat.mod_one]
  · subst h
    decide

/-- Converting an integer of magnitude at most `2^53` to `float64` is exact. -/
theorem float64_exact (n : Int) (h : n.natAbs ≤ 2 ^ 53) : float64 n = n := by
  unfold float64
  rw [roundMagnitude_exact _ h]
  split <;> congr 1 <;> omega

theorem excessBits_spec (fuel a : Nat) (h : a < 2 ^ 53 * 2 ^ fuel) :
    a / 2 ^ excessBits fuel a < 2 ^ 53 ∧
      (excessBits fuel a = 0 ∨ 2 ^ 52 ≤ a / 2 ^ excessBits fuel a) := by
  induction fuel generalizing a with
  | zero =>
    simp only [excessBits, pow_zero, Nat.div_one, mul_one] at h ⊢
    exact ⟨h, Or.inl trivial⟩
  | succ fuel ih =>
    unfold excessBits
    by_cases ha : a < 2 ^ 53
    · rw [if_pos ha]
      simp only [pow_zero, Nat.div_one]
      exact ⟨ha, Or.inl trivial⟩
    · rw [if_neg ha]
      have h2 : a / 2 < 2 ^ 53 * 2 ^ fuel := by
        rw [pow_succ] at h
        omega
      obtain ⟨h3, h4⟩ := ih (a / 2) h2
      have hd : a / 2 ^ (1 + excessBits fuel (a / 2)) = a / 2 / 2 ^ excessBits fuel (a / 2) := by
        rw [Nat.pow_add, pow_one, Nat.div_div_eq_div_mul]
      rw [hd]
      refine ⟨h3, Or.inr ?_⟩
      rcases h4 with h4 | h4
      · rw [h4, pow_zero, Nat.div_one]
        omega
      · exact h4

theorem roundMagnitude_of_no_excess (a : Nat) (h : excessBits 64 a = 0) :
    roundMagnitude a = a := by
  simp [roundMagnitude, h, Nat.mod_one]

theorem round_step (p q r half a : Nat) (hp : p = 2 * half) (hpos : 0 < half)
    (ha : p * q + r = a) (hr : r < p) (other : Prop) [Decidable other] (ho : other) :
    2 * (((if half < r ∨ (r = half ∧ other ∧ q % 2 = 1) then q + 1 else q) * p : Nat) -
        (a : Int)).natAbs ≤ p ∧
      (2 * (((if half < r ∨ (r = half ∧ other ∧ q % 2 = 1) then q + 1 else q) * p : Nat) -
        (a : Int)).natAbs = p →
        (if half < r ∨ (r = half ∧ other ∧ q % 2 = 1) then q + 1 else q) % 2 = 0) := by
  have hmul : (q + 1) * p = p * q + p := by ring
  have hmul2 : q * p = p * q := by ring
  split
  · rename_i hc
    rw [hmul]
    push_cast
    refine ⟨by omega, fun h => ?_⟩
    rcases hc with hc | hc
    · omega
    · omega
  · rename_i hc
    rw [hmul2]
    push_cast
    have hle : r ≤ half := by
      by_contra hn
      exact hc (Or.inl (by omega))
    refine ⟨by omega, fun h => ?_⟩
    have hrh : r = half := by omega
    by_contra hodd
    exact hc (Or.inr ⟨hrh, ho, by omega⟩)

/-- The conversion rounds to the nearest point of the grid of `float64` values
around the argument, ties to the even significand: the result is `m * 2^e`
with `m ≤ 2^53`, it differs from the argument by at most half the spacing
`2^e`, `m` is even when it differs by exactly half the spacing, and the spacing
is 1 or the argument is at least `2^52 * 2^e`. -/
theorem roundMagnitude_nearest (a : Nat) (h : a < 2 ^ 64) :
    ∃ e m, roundMagnitude a = m * 2 ^ e ∧ m ≤ 2 ^ 53 ∧
      2 * ((roundMagnitude a : Int) - a).natAbs ≤ 2 ^ e ∧
      (2 * ((roundMagnitude a : Int) - a).natAbs = 2 ^ e → m % 2 = 0) ∧
      (e = 0 ∨ 2 ^ 52 * 2 ^ e ≤ a) := by
  have hlt : a < 2 ^ 53 * 2 ^ 64 := by
    have : (2 : Nat) ^ 64 ≤ 2 ^ 53 * 2 ^ 64 := by norm_num
    omega
  obtain ⟨hq, he⟩ := excessBits_spec 64 a hlt
  rcases Nat.eq_zero_or_pos (excessBits 64 a) with h0 | h0
  · refine ⟨0, a, by rw [roundMagnitude_of_no_excess a h0]; simp, ?_, ?_, ?_, Or.inl rfl⟩
    · rw [h0, pow_zero, Nat.div_one] at hq
      omega
    · rw [roundMagnitude_of_no_excess a h0]
      simp
    · rw [roundMagnitude_of_no_excess a h0]
      simp
  · have hp : 0 < 2 ^ excessBits 64 a := pow_pos (by decide) _
    obtain ⟨k, hk⟩ := Nat.exists_eq_succ_of_ne_zero (Nat.pos_iff_ne_zero.mp h0)
    have hhalf : 2 ^ excessBits 64 a = 2 * (2 ^ excessBits 64 a / 2) := by
      rw [hk, pow_succ]
      omega
    have hhpos : 0 < 2 ^ excessBits 64 a / 2 := by omega
    have hs := round_step (2 ^ excessBits 64 a) (a / 2 ^ excessBits 64 a)
      (a % 2 ^ excessBits 64 a) (2 ^ excessBits 64 a / 2) a hhalf hhpos
      (Nat.div_add_mod a _) (Nat.mod_lt a hp) (0 < excessBits 64 a) h0
    refine ⟨excessBits 64 a, _, rfl, ?_, hs.1, hs.2, ?_⟩
    · split <;> omega
    · rcases he with he | he
      · exact Or.inl he
      · right
        rw [Nat.le_div_iff_mul_le hp] at he
        exact he

/-- The conversion of an integer of the 64-bit range rounds to nearest, ties to
even: its magnitude is `m * 2^e` with `m ≤ 2^53`, it differs from the integer by
at most half the spacing `2^e` of the `float64` values around it, and `m` is
even when it differs by exactly half the spacing. -/
theorem float64_nearest (n : Int) (h : n.natAbs < 2 ^ 64) :
    ∃ e m : Nat, |float64 n| = ((m * 2 ^ e : Nat) : Float64) ∧ m ≤ 2 ^ 53 ∧
      2 * |float64 n - (n : Float64)| ≤ ((2 ^ e : Nat) : Float64) ∧
      (2 * |float64 n - (n : Float64)| = ((2 ^ e : Nat) : Float64) → m % 2 = 0) ∧
      (e = 0 ∨ 2 ^ 52 * 2 ^ e ≤ n.natAbs) := by
  obtain ⟨e, m, h1, h2, h3, h4, h5⟩ := roundMagnitude_nearest n.natAbs h
  have hdiff : |float64 n - (n : Float64)| =
      ((((roundMagnitude n.natAbs : Int) - n.natAbs).natAbs : Nat) : Float64) := by
    unfold float64
    rw [← Int.cast_sub, ← Int.cast_abs, Int.abs_eq_natAbs, Int.cast_natCast]
    congr 1
    split <;> omega
  have habs : |float64 n| = ((roundMagnitude n.natAbs : Nat) : Float64) := by
    unfold float64
    rw [← Int.cast_abs, Int.abs_eq_natAbs, Int.cast_natCast]
    congr 1
    split <;> omega
  refine ⟨e, m, by rw [habs, h1], h2, ?_, ?_, h5⟩
  · rw [hdiff]
    exact_mod_cast h3
  · intro ht
    rw [hdiff] at ht
    exact h4 (by exact_mod_cast ht)

/-- Above `2^53` the conversion rounds up where the nearest value lies above:
`2^53 + 3` becomes `2^53 + 4`. -/
theorem float64_rounds_up : float64 9007199254740995 = 9007199254740996 := by
  decide


theorem observations_sub (small large : List Desc) (ch : Chan Metric)
    (h : ∀ d ∈ small, d ∈ large) :
    observations small ch =
      (observations large ch).filter (fun m => decide (m.desc ∈ small)) := by
  cases ch with
  | error e => rfl
  | ok sent =>
    simp only [observations, List.filter_filter]
    apply List.filter_congr
    intro m _
    by_cases hm : m.desc ∈ small
    · simp [hm, h _ hm]
    · simp [hm]

theorem scrapeDuration_ne_scrapeSuccess (client : Client) :
    (New client).scrapeDuration ≠ (New client).scrapeSuccess := by
  intro h
  have h2 := congrArg Desc.fqName h
  revert h2
  show ¬ ("immich_scrape_duration_seconds" = "immich_scrape_success")
  decide

theorem observations_success (client : Client) (env : Env) (duration : Float64) :
    observations [(New client).scrapeSuccess] (Collect (New client) env duration) =
      [ ⟨(New client).scrapeSuccess, GaugeValue, successValue client env, []⟩ ] := by
  rw [observations_sub _ (selfFamilies (New client)) _ (by simp [selfFamilies]),
    observations_self]
  simp [List.filter, scrapeDuration_ne_scrapeSuccess client]

theorem observations_duration (client : Client) (env : Env) (duration : Float64) :
    observations [(New client).scrapeDuration] (Collect (New client) env duration) =
      [ ⟨(New client).scrapeDuration, GaugeValue, duration, []⟩ ] := by
  rw [observations_sub _ (selfFamilies (New client)) _ (by simp [selfFamilies]),
    observations_self]
  simp [List.filter, (scrapeDuration_ne_scrapeSuccess client).symm]

theorem outcomeEnv_errors (client : Client) (j s t : Bool) :
    ((GetJobs client (outcomeEnv j s t)).2 = none ↔ j = true) ∧
    ((GetStatistics client (outcomeEnv j s t)).2 = none ↔ s = true) ∧
    ((GetStorage client (outcomeEnv j s t)).2 = none ↔ t = true) := by
  cases j <;> cases s <;> cases t <;>
    simp [GetJobs, GetStatistics, GetStorage, doRequest, outcomeEnv, envOf, StatusOK]

theorem range_nodup (m : JobsResponse) : (m.range.map Prod.fst).Nodup := by
  cases m with
  | none => simp [JobsResponse.range]
  | some qm => exact qm.nodup

theorem filter_queueMetrics (c : ImmichCollector) (kv : String × JobQueue) (q : String) :
    (queueMetrics c kv).filter (fun x => decide (x.labelValues = [q])) =
      if kv.1 = q then queueMetrics c kv else [] := by
  by_cases h : kv.1 = q <;> simp [queueMetrics, List.filter, h]

theorem filter_queues_absent (c : ImmichCollector) (l : List (String × JobQueue)) (q : String)
    (h : q ∉ l.map Prod.fst) :
    (l.flatMap (queueMetrics c)).filter (fun x => decide (x.labelValues = [q])) = [] := by
  induction l with
  | nil => rfl
  | cons a t ih =>
    simp only [List.map_cons, List.mem_cons, not_or] at h
    rw [List.flatMap_cons, List.filter_append, filter_queueMetrics, ih h.2,
      if_neg (fun e => h.1 e.symm)]
    rfl

theorem filter_queues_present (c : ImmichCollector) (l : List (String × JobQueue))
    (hl : (l.map Prod.fst).Nodup) (kv : String × JobQueue) (h : kv ∈ l) :
    (l.flatMap (queueMetrics c)).filter (fun x => decide (x.labelValues = [kv.1])) =
      queueMetrics c kv := by
  induction l with
  | nil => simp at h
  | cons a t ih =>
    simp only [List.map_cons, List.nodup_cons] at hl
    rw [List.flatMap_cons, List.filter_append, filter_queueMetrics]
    rcases List.mem_cons.mp h with h | h
    · subst h
      rw [if_pos rfl, filter_queues_absent c t _ hl.1, List.append_nil]
    · have hne : a.1 ≠ kv.1 := fun e => hl.1 (e ▸ List.mem_map_of_mem Prod.fst h)
      rw [if_neg hne, ih hl.2 h, List.nil_append]

theorem length_flatMap_queues (c : ImmichCollector) (l : List (String × JobQueue)) :
    (l.flatMap (queueMetrics c)).length = 8 * l.length := by
  induction l with
  | nil => rfl
  | cons a t ih =>
    rw [List.flatMap_cons, List.length_append, ih, List.length_cons]
    simp [queueMetrics]
    omega

theorem length_flatMap_users (c : ImmichCollector) (l : List UserUsage) :
    (l.flatMap (userMetrics c)).length = 3 * l.length := by
  induction l with
  | nil => rfl
  | cons a t ih =>
    rw [List.flatMap_cons, List.length_append, ih, List.length_cons]
    simp [userMetrics]
    omega


/-! ### The fetches -/

theorem doRequest_eq {T : Type} (c : Client) (env : Env)
    (decode : String → T → T × Option String) (path : String) (zero : T) :
    doRequest c env decode path zero =
      match env.requestError "GET" (c.baseURL ++ path) with
      | some e => (zero, some (Error.creatingRequest e))
      | none =>
        match env.Do c.httpClient (sentRequest c path) with
        | Except.error e => (zero, some (Error.executingRequest e))
        | Except.ok resp =>
          if resp.StatusCode = 200 then
            match decode resp.Body zero with
            | (r, some e) => (r, some (Error.decodingResponse e))
            | (r, none) => (r, none)
          else (zero, some (Error.unexpectedStatusCode resp.StatusCode)) := by
  have hreq : (({ Method := "GET", URL := c.baseURL ++ path, Header := [] } : Request).setHeader
      "x-api-key" c.apiKey).setHeader "Accept" "application/json" = sentRequest c path := by
    simp [Request.setHeader, sentRequest]
  unfold doRequest
  simp only [requestURL, hreq, StatusOK]
  cases env.requestError "GET" (c.baseURL ++ path) with
  | some e => rfl
  | none =>
    simp only []
    cases env.Do c.httpClient (sentRequest c path) with
    | error e => rfl
    | ok resp =>
      simp only []
      by_cases hs : resp.StatusCode = 200
      · rcases hdec : decode resp.Body zero with ⟨r, _ | e⟩ <;> simp [hs, hdec]
      · simp [hs]

theorem fetchContract_of {T R : Type} (c : Client) (env : Env)
    (decode : String → T → T × Option String) (path : String) (zero : T)
    (wrap : T → R) (missing : R) (out : R × Option Error)
    (hok : ∀ r, doRequest c env decode path zero = (r, none) → out = (wrap r, none))
    (herr : ∀ r e, doRequest c env decode path zero = (r, some e) → out = (missing, some e)) :
    FetchContract c env decode path zero wrap missing out := by
  rw [doRequest_eq] at hok herr
  unfold FetchContract
  cases hre : env.requestError "GET" (c.baseURL ++ path) with
  | some e =>
    simp only [hre] at herr
    simp [herr zero _ rfl]
  | none =>
    simp only [hre] at hok herr
    cases hdo : env.Do c.httpClient (sentRequest c path) with
    | error e =>
      simp only [hdo] at herr
      simp [herr zero _ rfl]
    | ok resp =>
      simp only [hdo] at hok herr
      by_cases hs : resp.StatusCode = 200
      · simp only [if_pos hs] at hok herr
        rcases hdec : decode resp.Body zero with ⟨r, _ | e⟩
        · simp only [hdec] at hok
          simp [hok r rfl, hs, hdec]
          intro resp1 e1 h1
          subst h1
          simp [hdec]
        · simp only [hdec] at herr
          simp [herr r _ rfl, hs, hdec]
          intro resp1 e1 h1
          subst h1
          simp [hdec]
      · simp only [if_neg hs] at herr
        simp [herr zero _ rfl, hs]
        intro resp1 e1 h1 h2
        subst h1
        exact absurd h2 hs

theorem GetJobs_contract (c : Client) (env : Env) :
    FetchContract c env env.decodeJobs "/api/jobs" (none : JobsResponse)
      (fun r => r) (none : JobsResponse) (GetJobs c env) := by
  apply fetchContract_of
  · intro r h
    simp [GetJobs, h]
  · intro r e h
    simp [GetJobs, h]

theorem GetStatistics_contract (c : Client) (env : Env) :
    FetchContract c env env.decodeStatistics "/api/server/statistics" StatisticsResponse.zero
      some (none : Option StatisticsResponse) (GetStatistics c env) := by
  apply fetchContract_of
  · intro r h
    simp [GetStatistics, h]
  · intro r e h
    simp [GetStatistics, h]

theorem GetStorage_contract (c : Client) (env : Env) :
    FetchContract c env env.decodeStorage "/api/server/storage" StorageResponse.zero
      some (none : Option StorageResponse) (GetStorage c env) := by
  apply fetchContract_of
  · intro r h
    simp [GetStorage, h]
  · intro r e h
    simp [GetStorage, h]


/-! ### Trailing separators -/

theorem TrimRight_data (s : String) :
    (TrimRight s "/").data = s.data.rdropWhile (fun ch => decide (ch = '/')) := by
  have h : (fun ch : Char => decide (ch ∈ "/".data)) = (fun ch => decide (ch = '/')) := by
    funext ch
    simp
  simp [TrimRight, h]

theorem rdropWhile_slashes (l : List Char) (k : Nat) :
    (l ++ List.replicate k '/').rdropWhile (fun ch => decide (ch = '/')) =
      l.rdropWhile (fun ch => decide (ch = '/')) := by
  induction k with
  | zero => simp
  | succ k ih =>
    rw [List.replicate_succ', ← List.append_assoc, List.rdropWhile_concat_pos _ _ _ (by simp), ih]

theorem rdropWhile_decompose (l : List Char) :
    ∃ k, l = l.rdropWhile (fun ch => decide (ch = '/')) ++ List.replicate k '/' := by
  induction l using List.reverseRecOn with
  | nil => exact ⟨0, by simp⟩
  | append_singleton l x ih =>
    by_cases hx : x = '/'
    · obtain ⟨k, hk⟩ := ih
      refine ⟨k + 1, ?_⟩
      rw [List.rdropWhile_concat_pos _ _ _ (by simp [hx]), List.replicate_succ',
        ← List.append_assoc, ← hk, hx]
    · exact ⟨0, by rw [List.rdropWhile_concat_neg _ _ _ (by simp [hx])]; simp⟩

theorem TrimRight_no_slash (s u : String) : TrimRight s "/" ≠ u ++ "/" := by
  intro h
  have hd := congrArg String.data h
  rw [TrimRight_data, String.data_append] at hd
  have hne : s.data.rdropWhile (fun ch => decide (ch = '/')) ≠ [] := by
    rw [hd]; simp
  have hlast := List.rdropWhile_last_not (fun ch => decide (ch = '/')) s.data hne
  apply hlast
  have : (s.data.rdropWhile (fun ch => decide (ch = '/'))).getLast hne = '/' := by
    simp only [hd]
    show (u.data ++ ['/']).getLast _ = '/'
    simp
  simp [this]

theorem TrimRight_decompose (s : String) : ∃ k, s = TrimRight s "/" ++ slashes k := by
  obtain ⟨k, hk⟩ := rdropWhile_decompose s.data
  refine ⟨k, String.ext ?_⟩
  rw [String.data_append, TrimRight_data]
  exact hk

theorem TrimRight_slashes (t : String) (k : Nat) :
    TrimRight (t ++ slashes k) "/" = TrimRight t "/" := by
  apply String.ext
  rw [TrimRight_data, TrimRight_data, String.data_append]
  exact rdropWhile_slashes t.data k

theorem TrimRight_fixed (u : String) (h : ∀ v : String, u ≠ v ++ "/") : TrimRight u "/" = u := by
  apply String.ext
  rw [TrimRight_data, List.rdropWhile_eq_self_iff]
  intro hl hp
  simp only [decide_eq_true_eq] at hp
  apply h ⟨u.data.dropLast⟩
  apply String.ext
  rw [String.data_append]
  show u.data = u.data.dropLast ++ ['/']
  rw [← hp, List.dropLast_append_getLast hl]


/-! ### Label arity -/

theorem jobsPart_shape (client : Client) (r : JobsResponse × Option Error) :
    ∀ m ∈ jobsPart (New client) r,
      m.labelValues.length = m.desc.variableLabels.length := by
  intro m hm
  unfold jobsPart at hm
  split at hm
  · simp only [List.mem_flatMap, queueMetrics] at hm
    obtain ⟨kv, _, h⟩ := hm
    simp only [List.mem_cons, List.mem_singleton, List.not_mem_nil, or_false] at h
    rcases h with h | h | h | h | h | h | h | h <;> subst h <;> rfl
  · simp at hm

theorem statisticsPart_shape (client : Client) (r : Option StatisticsResponse × Option Error) :
    ∀ m ∈ statisticsPart (New client) r,
      m.labelValues.length = m.desc.variableLabels.length := by
  intro m hm
  unfold statisticsPart at hm
  split at hm
  · simp only [statisticsMetrics, List.mem_append, List.mem_flatMap, userMetrics, List.mem_cons,
      List.mem_singleton, List.not_mem_nil, or_false] at hm
    rcases hm with (h | h | h) | ⟨u, _, h | h | h⟩ <;> subst h <;> rfl
  · simp at hm

theorem storagePart_shape (client : Client) (r : Option StorageResponse × Option Error) :
    ∀ m ∈ storagePart (New client) r,
      m.labelValues.length = m.desc.variableLabels.length := by
  intro m hm
  unfold storagePart at hm
  split at hm
  · simp only [storageMetrics, List.mem_cons, List.mem_singleton, List.not_mem_nil, or_false] at hm
    rcases hm with h | h | h | h <;> subst h <;> rfl
  · simp at hm


/-! ### One observation per family and label values -/

theorem keys_nodup_of_names (l : List Metric)
    (h : (l.map (fun m => m.desc.fqName)).Nodup) : (l.map metricKey).Nodup := by
  apply List.Nodup.of_map (fun k : Desc × List String => k.1.fqName)
  rw [List.map_map]
  exact h

theorem queueMetrics_keys_nodup (client : Client) (kv : String × JobQueue) :
    ((queueMetrics (New client) kv).map metricKey).Nodup := by
  apply keys_nodup_of_names
  show List.Nodup [ "immich_job_active", "immich_job_waiting", "immich_job_failed",
    "immich_job_delayed", "immich_job_paused", "immich_job_completed", "immich_queue_active",
    "immich_queue_paused" ]
  decide

theorem userMetrics_keys_nodup (client : Client) (user : UserUsage) :
    ((userMetrics (New client) user).map metricKey).Nodup := by
  apply keys_nodup_of_names
  show List.Nodup [ "immich_user_photos", "immich_user_videos", "immich_user_bytes" ]
  decide

theorem queueMetrics_labels (c : ImmichCollector) (kv : String × JobQueue) :
    ∀ k ∈ (queueMetrics c kv).map metricKey, k.2 = [kv.1] := by
  intro k hk
  simp only [queueMetrics, metricKey, List.map_cons, List.map_nil, List.mem_cons,
    List.mem_singleton, List.not_mem_nil, or_false] at hk
  rcases hk with h | h | h | h | h | h | h | h <;> rw [h]

theorem userMetrics_labels (c : ImmichCollector) (user : UserUsage) :
    ∀ k ∈ (userMetrics c user).map metricKey, k.2 = [user.UserName] := by
  intro k hk
  simp only [userMetrics, metricKey, List.map_cons, List.map_nil, List.mem_cons,
    List.mem_singleton, List.not_mem_nil, or_false] at hk
  rcases hk with h | h | h <;> rw [h]

theorem queues_keys_nodup (client : Client) (l : List (String × JobQueue))
    (hl : (l.map Prod.fst).Nodup) :
    ((l.flatMap (queueMetrics (New client))).map metricKey).Nodup := by
  rw [List.map_flatMap, List.nodup_flatMap]
  refine ⟨fun kv _ => queueMetrics_keys_nodup client kv, ?_⟩
  have hp : List.Pairwise (fun a b : String × JobQueue => a.1 ≠ b.1) l := List.pairwise_map.mp hl
  refine hp.imp ?_
  intro a b hab k ha hb
  have h1 := queueMetrics_labels (New client) a k ha
  have h2 := queueMetrics_labels (New client) b k hb
  rw [h1] at h2
  exact hab (List.singleton_inj.mp h2)

theorem users_keys_nodup (client : Client) (l : List UserUsage)
    (hl : (l.map UserUsage.UserName).Nodup) :
    ((l.flatMap (userMetrics (New client))).map metricKey).Nodup := by
  rw [List.map_flatMap, List.nodup_flatMap]
  refine ⟨fun u _ => userMetrics_keys_nodup client u, ?_⟩
  have hp : List.Pairwise (fun a b : UserUsage => a.UserName ≠ b.UserName) l :=
    List.pairwise_map.mp hl
  refine hp.imp ?_
  intro a b hab k ha hb
  have h1 := userMetrics_labels (New client) a k ha
  have h2 := userMetrics_labels (New client) b k hb
  rw [h1] at h2
  exact hab (List.singleton_inj.mp h2)

theorem part_keys_family (part : List Metric) (family : List Desc)
    (h : ∀ m ∈ part, m.desc ∈ family) : ∀ k ∈ part.map metricKey, k.1 ∈ family := by
  intro k hk
  obtain ⟨m, hm, rfl⟩ := List.mem_map.mp hk
  exact h m hm

theorem keys_disjoint (p q : List Metric) (f g : List Desc)
    (hp : ∀ m ∈ p, m.desc ∈ f) (hq : ∀ m ∈ q, m.desc ∈ g) (hfg : ∀ d ∈ f, d ∉ g) :
    List.Disjoint (p.map metricKey) (q.map metricKey) := by
  intro k h1 h2
  exact hfg _ (part_keys_family p f hp k h1) (part_keys_family q g hq k h2)

theorem jobsPart_keys_nodup (client : Client) (r : JobsResponse × Option Error) :
    ((jobsPart (New client) r).map metricKey).Nodup := by
  unfold jobsPart
  split
  · exact queues_keys_nodup client _ (range_nodup r.1)
  · exact List.nodup_nil

theorem statisticsMetrics_keys_nodup (client : Client) (s : StatisticsResponse)
    (h : (s.UsageByUser.map UserUsage.UserName).Nodup) :
    ((statisticsMetrics (New client) s).map metricKey).Nodup := by
  unfold statisticsMetrics
  rw [List.map_append, List.nodup_append]
  refine ⟨?_, users_keys_nodup client _ h, ?_⟩
  · apply keys_nodup_of_names
    show List.Nodup [ "immich_library_photos", "immich_library_videos", "immich_library_bytes" ]
    decide
  · intro k h1 h2
    rw [List.map_flatMap] at h2
    obtain ⟨u, _, hu⟩ := List.mem_flatMap.mp h2
    have hl := userMetrics_labels (New client) u k hu
    simp only [metricKey, List.map_cons, List.map_nil, List.mem_cons, List.mem_singleton,
      List.not_mem_nil, or_false] at h1
    rcases h1 with h1 | h1 | h1 <;> rw [h1] at hl <;> simp at hl

theorem statisticsPart_keys_nodup (client : Client)
    (r : Option StatisticsResponse × Option Error)
    (h : ∀ s, r.1 = some s → (s.UsageByUser.map UserUsage.UserName).Nodup) :
    ((statisticsPart (New client) r).map metricKey).Nodup := by
  unfold statisticsPart
  split
  · exact statisticsMetrics_keys_nodup client _ (h _ rfl)
  · exact List.nodup_nil

theorem storagePart_keys_nodup (client : Client) (r : Option StorageResponse × Option Error) :
    ((storagePart (New client) r).map metricKey).Nodup := by
  unfold storagePart
  split
  · apply keys_nodup_of_names
    show List.Nodup [ "immich_storage_total_bytes", "immich_storage_used_bytes",
      "immich_storage_available_bytes", "immich_storage_usage_percent" ]
    decide
  · exact List.nodup_nil

theorem selfPart_keys_nodup (client : Client) (duration success : Float64) :
    (([ ⟨(New client).scrapeDuration, GaugeValue, duration, []⟩,
        ⟨(New client).scrapeSuccess, GaugeValue, success, []⟩ ] : List Metric).map
      metricKey).Nodup := by
  apply keys_nodup_of_names
  show List.Nodup [ "immich_scrape_duration_seconds", "immich_scrape_success" ]
  decide

theorem collect_keys_nodup (client : Client) (env : Env) (duration : Float64)
    (h : ∀ s, (GetStatistics client env).1 = some s →
      (s.UsageByUser.map UserUsage.UserName).Nodup) :
    ∃ sent, Collect (New client) env duration = Except.ok sent ∧
      (sent.map metricKey).Nodup := by
  obtain ⟨h1, h2, h3, _⟩ := families_disjoint client
  refine ⟨_, Collect_New client env duration, ?_⟩
  simp only [List.map_append, List.nodup_append, List.disjoint_append_left]
  refine ⟨⟨⟨jobsPart_keys_nodup client _, statisticsPart_keys_nodup client _ h, ?_⟩,
    storagePart_keys_nodup client _, ?_, ?_⟩, selfPart_keys_nodup client _ _, ⟨?_, ?_⟩, ?_⟩
  · exact keys_disjoint _ _ _ _ (jobsPart_desc _ _) (statisticsPart_desc _ _)
      (fun d hd => (h1 d hd).1)
  · exact keys_disjoint _ _ _ _ (jobsPart_desc _ _) (storagePart_desc _ _)
      (fun d hd => (h1 d hd).2.1)
  · exact keys_disjoint _ _ _ _ (statisticsPart_desc _ _) (storagePart_desc _ _)
      (fun d hd => (h2 d hd).2.1)
  · exact keys_disjoint _ _ _ _ (jobsPart_desc _ _) (selfPart_desc _ _ _)
      (fun d hd => (h1 d hd).2.2)
  · exact keys_disjoint _ _ _ _ (statisticsPart_desc _ _) (selfPart_desc _ _ _)
      (fun d hd => (h2 d hd).2.2)
  · exact keys_disjoint _ _ _ _ (storagePart_desc _ _) (selfPart_desc _ _ _)
      (fun d hd => (h3 d hd).2.2)

theorem userFamilies_distinct (client : Client) :
    (New client).userPhotos ≠ (New client).userVideos ∧
    (New client).userPhotos ≠ (New client).userBytes ∧
    (New client).userVideos ≠ (New client).userBytes := by
  refine ⟨fun h => ?_, fun h => ?_, fun h => ?_⟩ <;>
  · have h2 := congrArg Desc.fqName h
    revert h2
    first
      | (show ¬ ("immich_user_photos" = "immich_user_videos"); decide)
      | (show ¬ ("immich_user_photos" = "immich_user_bytes"); decide)
      | (show ¬ ("immich_user_videos" = "immich_user_bytes"); decide)

theorem length_filter_userMetrics (client : Client) (r : UserUsage) (d : Desc) (u : String)
    (hd : d ∈ userFamilies (New client)) :
    ((userMetrics (New client) r).filter
      (fun m => decide (m.desc = d ∧ m.labelValues = [u]))).length =
      if r.UserName = u then 1 else 0 := by
  obtain ⟨h1, h2, h3⟩ := userFamilies_distinct client
  simp only [userFamilies, List.mem_cons, List.mem_singleton, List.not_mem_nil, or_false] at hd
  by_cases hu : r.UserName = u <;> rcases hd with hd | hd | hd <;> subst hd <;>
    simp [userMetrics, List.filter, hu, h1, h2, h3, h1.symm, h2.symm, h3.symm]

theorem length_filter_users (client : Client) (l : List UserUsage) (d : Desc) (u : String)
    (hd : d ∈ userFamilies (New client)) :
    ((l.flatMap (userMetrics (New client))).filter
      (fun m => decide (m.desc = d ∧ m.labelValues = [u]))).length =
      (l.filter (fun r => decide (r.UserName = u))).length := by
  induction l with
  | nil => rfl
  | cons a t ih =>
    rw [List.flatMap_cons, List.filter_append, List.length_append, ih,
      length_filter_userMetrics client a d u hd]
    by_cases hu : a.UserName = u <;> simp [List.filter, hu]
    omega

theorem length_filter_statistics (client : Client) (s : StatisticsResponse) (d : Desc)
    (u : String) (hd : d ∈ userFamilies (New client)) :
    ((statisticsMetrics (New client) s).filter
      (fun m => decide (m.desc = d ∧ m.labelValues = [u]))).length =
      (s.UsageByUser.filter (fun r => decide (r.UserName = u))).length := by
  unfold statisticsMetrics
  rw [List.filter_append, List.length_append, length_filter_users client _ d u hd]
  simp [List.filter]

theorem length_filter_key_le_one (l : List Metric) (h : (l.map metricKey).Nodup) (d : Desc)
    (lv : List String) :
    (l.filter (fun m => decide (m.desc = d ∧ m.labelValues = lv))).length ≤ 1 := by
  induction l with
  | nil => simp
  | cons a t ih =>
    rw [List.map_cons, List.nodup_cons] at h
    by_cases ha : a.desc = d ∧ a.labelValues = lv
    · have ht : t.filter (fun m => decide (m.desc = d ∧ m.labelValues = lv)) = [] := by
        rw [List.filter_eq_nil_iff]
        intro m hm hp
        simp only [decide_eq_true_eq] at hp
        apply h.1
        have hk : metricKey a = metricKey m := by
          simp [metricKey, ha.1, ha.2, hp.1, hp.2]
        rw [hk]
        exact List.mem_map_of_mem metricKey hm
      rw [List.filter_cons_of_pos (by simpa using ha), ht]
      simp
    · rw [List.filter_cons_of_neg (by simpa using ha)]
      exact ih h.2

/-! ## The claims -/

/-- C1: the `immich_scrape_success` observation emitted by `Collect` is 1 when
`GetJobs`, `GetStatistics` and `GetStorage` all returned no error and 0 when at
least one of them returned an error, whatever the upstream answers; each of the
eight combinations of outcomes does occur. -/
theorem scrape_success_value (client : Client) (env : Env) (duration : Float64) :
    (New client).scrapeSuccess.fqName = "immich_scrape_success" ∧
    observations [(New client).scrapeSuccess] (Collect (New client) env duration) =
      [ ⟨(New client).scrapeSuccess, GaugeValue,
          if (GetJobs client env).2 = none ∧ (GetStatistics client env).2 = none ∧
            (GetStorage client env).2 = none then 1 else 0, []⟩ ] ∧
    ∀ j s t : Bool,
      ((GetJobs client (outcomeEnv j s t)).2 = none ↔ j = true) ∧
      ((GetStatistics client (outcomeEnv j s t)).2 = none ↔ s = true) ∧
      ((GetStorage client (outcomeEnv j s t)).2 = none ↔ t = true) :=
  ⟨rfl, observations_success client env duration, outcomeEnv_errors client⟩

/-- C2: each resource is handled on its own.  `Collect` always runs to its end.
When the fetch of a resource returned an error, no observation of that
resource's families is emitted; when it returned no error, the observations of
its response are emitted; and what is emitted for a resource is the same in any
two runs in which that resource's fetch returned the same, whatever the other
two fetches returned. -/
theorem resources_independent (client : Client) (env env2 : Env) (duration duration2 : Float64) :
    (∃ sent, Collect (New client) env duration = Except.ok sent) ∧
    ((GetJobs client env).2 ≠ none → jobObservations client env duration = []) ∧
    ((GetStatistics client env).2 ≠ none → statisticsObservations client env duration = []) ∧
    ((GetStorage client env).2 ≠ none → storageObservations client env duration = []) ∧
    ((GetJobs client env).2 = none → jobObservations client env duration =
      (GetJobs client env).1.range.flatMap (queueMetrics (New client))) ∧
    ((GetStatistics client env).2 = none → ∃ s, (GetStatistics client env).1 = some s ∧
      statisticsObservations client env duration = statisticsMetrics (New client) s) ∧
    ((GetStorage client env).2 = none → ∃ r, (GetStorage client env).1 = some r ∧
      storageObservations client env duration = storageMetrics (New client) r) ∧
    (GetJobs client env = GetJobs client env2 →
      jobObservations client env duration = jobObservations client env2 duration2) ∧
    (GetStatistics client env = GetStatistics client env2 →
      statisticsObservations client env duration =
        statisticsObservations client env2 duration2) ∧
    (GetStorage client env = GetStorage client env2 →
      storageObservations client env duration = storageObservations client env2 duration2) := by
  simp only [jobObservations, statisticsObservations, storageObservations, observations_jobs,
    observations_statistics, observations_storage]
  refine ⟨⟨_, Collect_New client env duration⟩, ?_, ?_, ?_, ?_, ?_, ?_, ?_, ?_, ?_⟩
  · intro h; simp [jobsPart, h]
  · intro h
    rcases GetStatistics_cases client env with ⟨s, hs⟩ | ⟨e, hs⟩
    · rw [hs] at h; simp at h
    · rw [hs]; rfl
  · intro h
    rcases GetStorage_cases client env with ⟨s, hs⟩ | ⟨e, hs⟩
    · rw [hs] at h; simp at h
    · rw [hs]; rfl
  · intro h; simp [jobsPart, h]
  · intro h
    rcases GetStatistics_cases client env with ⟨s, hs⟩ | ⟨e, hs⟩
    · rw [hs]; exact ⟨s, rfl, rfl⟩
    · rw [hs] at h; simp at h
  · intro h
    rcases GetStorage_cases client env with ⟨s, hs⟩ | ⟨e, hs⟩
    · rw [hs]; exact ⟨s, rfl, rfl⟩
    · rw [hs] at h; simp at h
  · intro h; rw [h]
  · intro h; rw [h]
  · intro h; rw [h]

/-- Witness of C2: jobs fail to decode while statistics and storage succeed. -/
theorem resources_independent_witness :
    jobObservations testClient (outcomeEnv false true true) 0 = [] ∧
    statisticsObservations testClient (outcomeEnv false true true) 0 =
      statisticsObservations testClient (outcomeEnv true true true) 1 ∧
    storageObservations testClient (outcomeEnv false true true) 0 =
      storageObservations testClient (outcomeEnv true true true) 1 ∧
    (statisticsObservations testClient (outcomeEnv false true true) 0).length = 6 ∧
    (storageObservations testClient (outcomeEnv false true true) 0).length = 4 :=
  ⟨(resources_independent testClient (outcomeEnv false true true) (outcomeEnv true true true)
      0 1).2.1 (by decide),
    (resources_independent testClient (outcomeEnv false true true) (outcomeEnv true true true)
      0 1).2.2.2.2.2.2.2.2.1 rfl,
    (resources_independent testClient (outcomeEnv false true true) (outcomeEnv true true true)
      0 1).2.2.2.2.2.2.2.2.2 rfl,
    by decide, by decide⟩

/-- C3: every run of `Collect` emits exactly two observations of the exporter
itself, one `immich_scrape_duration_seconds` and one `immich_scrape_success`,
both without label values, whatever the three fetches returned. -/
theorem self_observations (client : Client) (env : Env) (duration : Float64) :
    (selfFamilies (New client)).map Desc.fqName =
      ["immich_scrape_duration_seconds", "immich_scrape_success"] ∧
    (selfFamilies (New client)).map Desc.variableLabels = [[], []] ∧
    (∃ success : Float64, selfObservations client env duration =
      [ ⟨(New client).scrapeDuration, GaugeValue, duration, []⟩,
        ⟨(New client).scrapeSuccess, GaugeValue, success, []⟩ ]) ∧
    (selfObservations client env duration).length = 2 ∧
    (observations [(New client).scrapeDuration] (Collect (New client) env duration)).length = 1 ∧
    (observations [(New client).scrapeSuccess] (Collect (New client) env duration)).length = 1 := by
  refine ⟨rfl, rfl, ⟨successValue client env, observations_self client env duration⟩, ?_, ?_, ?_⟩
  · simp [selfObservations, observations_self]
  · simp [observations_duration]
  · simp [observations_success]

/-- C4 as stated fails: a queue whose active count is 9007199254740993
(`2^53 + 1`) gets an `immich_job_active` observation of 9007199254740992. -/
theorem job_counts_counterexample :
    GetJobs testClient bigEnv = (some bigJobs, none) ∧
    bigJobs.entries.map (fun kv => (kv.1, kv.2.JobCounts.Active)) =
      [("thumbnailGeneration", 9007199254740993)] ∧
    observations [(New testClient).jobActive] (Collect (New testClient) bigEnv 0) =
      [ ⟨(New testClient).jobActive, GaugeValue, 9007199254740992, ["thumbnailGeneration"]⟩ ] ∧
    (9007199254740992 : Float64) ≠ ((9007199254740993 : Int) : Float64) := by
  refine ⟨rfl, rfl, by decide, by decide⟩

/-- C4, amended: when `GetJobs` succeeds with mapping `m`, `Collect` emits for
every queue name `q` of `m` exactly eight observations labelled `queue=q`: the
six job gauges hold the `float64` conversion of that queue's six counts, which
is the count itself whenever its magnitude is at most `2^53`, and the two queue
gauges hold 1 for a true flag and 0 for a false one.  It emits no job or queue
observation for a name not in `m`, so `8 * |m|` in total. -/
theorem job_observations (client : Client) (env : Env) (duration : Float64) (m : JobsResponse)
    (h : GetJobs client env = (m, none)) :
    (jobFamilies (New client)).map Desc.fqName =
      [ "immich_job_active", "immich_job_waiting", "immich_job_failed", "immich_job_delayed",
        "immich_job_paused", "immich_job_completed", "immich_queue_active",
        "immich_queue_paused" ] ∧
    (∀ q queue, (q, queue) ∈ m.range →
      (jobObservations client env duration).filter (fun x => decide (x.labelValues = [q])) =
        [ ⟨(New client).jobActive, GaugeValue, float64 queue.JobCounts.Active, [q]⟩,
          ⟨(New client).jobWaiting, GaugeValue, float64 queue.JobCounts.Waiting, [q]⟩,
          ⟨(New client).jobFailed, GaugeValue, float64 queue.JobCounts.Failed, [q]⟩,
          ⟨(New client).jobDelayed, GaugeValue, float64 queue.JobCounts.Delayed, [q]⟩,
          ⟨(New client).jobPaused, GaugeValue, float64 queue.JobCounts.Paused, [q]⟩,
          ⟨(New client).jobCompleted, GaugeValue, float64 queue.JobCounts.Completed, [q]⟩,
          ⟨(New client).queueActive, GaugeValue, if queue.QueueStatus.IsActive then 1 else 0, [q]⟩,
          ⟨(New client).queuePaused, GaugeValue, if queue.QueueStatus.IsPaused then 1 else 0, [q]⟩ ]) ∧
    (∀ q, q ∉ m.range.map Prod.fst →
      (jobObservations client env duration).filter (fun x => decide (x.labelValues = [q])) = []) ∧
    (jobObservations client env duration).length = 8 * m.range.length ∧
    (∀ n : Int, n.natAbs ≤ 2 ^ 53 → float64 n = n) := by
  have hobs : jobObservations client env duration = m.range.flatMap (queueMetrics (New client)) := by
    simp [jobObservations, observations_jobs, jobsPart, h]
  refine ⟨rfl, ?_, ?_, ?_, float64_exact⟩
  · intro q queue hq
    rw [hobs, filter_queues_present (New client) m.range (range_nodup m) (q, queue) hq]
    rfl
  · intro q hq
    rw [hobs, filter_queues_absent (New client) m.range q hq]
  · rw [hobs, length_flatMap_queues]

/-- Witness of C4: the jobs response of the collector test. -/
theorem job_observations_witness :
    GetJobs testClient testEnv = (some testJobs, none) ∧
    (jobObservations testClient testEnv 0).filter
        (fun x => decide (x.labelValues = ["thumbnailGeneration"])) =
      [ ⟨(New testClient).jobActive, GaugeValue, 3, ["thumbnailGeneration"]⟩,
        ⟨(New testClient).jobWaiting, GaugeValue, 10, ["thumbnailGeneration"]⟩,
        ⟨(New testClient).jobFailed, GaugeValue, 2, ["thumbnailGeneration"]⟩,
        ⟨(New testClient).jobDelayed, GaugeValue, 1, ["thumbnailGeneration"]⟩,
        ⟨(New testClient).jobPaused, GaugeValue, 0, ["thumbnailGeneration"]⟩,
        ⟨(New testClient).jobCompleted, GaugeValue, 0, ["thumbnailGeneration"]⟩,
        ⟨(New testClient).queueActive, GaugeValue, 1, ["thumbnailGeneration"]⟩,
        ⟨(New testClient).queuePaused, GaugeValue, 0, ["thumbnailGeneration"]⟩ ] ∧
    (jobObservations testClient testEnv 0).length = 8 ∧
    float64 3 = 3 := by
  have h := job_observations testClient testEnv 0 (some testJobs) rfl
  refine ⟨rfl, ?_, h.2.2.2.1, h.2.2.2.2 3 (by decide)⟩
  rw [h.2.1 "thumbnailGeneration" _ (List.mem_singleton.mpr rfl)]
  decide

/-- C5 as stated fails: a library usage of 9007199254740993 bytes (`2^53 + 1`)
gets an `immich_library_bytes` observation of 9007199254740992. -/
theorem statistics_counterexample :
    GetStatistics testClient bigEnv = (some bigStatistics, none) ∧
    bigStatistics.Usage = 9007199254740993 ∧
    observations [(New testClient).libraryBytes] (Collect (New testClient) bigEnv 0) =
      [ ⟨(New testClient).libraryBytes, GaugeValue, 9007199254740992, []⟩ ] ∧
    (9007199254740992 : Float64) ≠ ((9007199254740993 : Int) : Float64) := by
  refine ⟨rfl, rfl, by decide, by decide⟩

/-- C5, amended: when `GetStatistics` succeeds with a response `s` holding `n`
user records, `Collect` emits exactly `3 + 3 * n` statistics observations: the
unlabelled `immich_library_photos`, `immich_library_videos` and
`immich_library_bytes`, then for every user record, in the order of the
response, `immich_user_photos`, `immich_user_videos` and `immich_user_bytes`
labelled with the user name.  Each holds the `float64` conversion of the
field, which is the field itself whenever its magnitude is at most `2^53`; so
5000 photos give exactly 5000. -/
theorem statistics_observations (client : Client) (env : Env) (duration : Float64)
    (s : StatisticsResponse) (h : GetStatistics client env = (some s, none)) :
    (statisticsFamilies (New client)).map Desc.fqName =
      [ "immich_library_photos", "immich_library_videos", "immich_library_bytes",
        "immich_user_photos", "immich_user_videos", "immich_user_bytes" ] ∧
    statisticsObservations client env duration =
      [ ⟨(New client).libraryPhotos, GaugeValue, float64 s.Photos, []⟩,
        ⟨(New client).libraryVideos, GaugeValue, float64 s.Videos, []⟩,
        ⟨(New client).libraryBytes, GaugeValue, float64 s.Usage, []⟩ ] ++
      s.UsageByUser.flatMap (fun user =>
        [ ⟨(New client).userPhotos, GaugeValue, float64 user.Photos, [user.UserName]⟩,
          ⟨(New client).userVideos, GaugeValue, float64 user.Videos, [user.UserName]⟩,
          ⟨(New client).userBytes, GaugeValue, float64 user.Usage, [user.UserName]⟩ ]) ∧
    (statisticsObservations client env duration).length = 3 + 3 * s.UsageByUser.length ∧
    (∀ n : Int, n.natAbs ≤ 2 ^ 53 → float64 n = n) ∧
    float64 5000 = 5000 := by
  have hobs : statisticsObservations client env duration = statisticsMetrics (New client) s := by
    simp [statisticsObservations, observations_statistics, statisticsPart, h]
  refine ⟨rfl, hobs, ?_, float64_exact, float64_exact _ (by decide)⟩
  rw [hobs, statisticsMetrics, List.length_append, length_flatMap_users]
  rfl

/-- Witness of C5: the statistics response of the collector test. -/
theorem statistics_observations_witness :
    GetStatistics testClient testEnv = (some testStatistics, none) ∧
    statisticsObservations testClient testEnv 0 =
      [ ⟨(New testClient).libraryPhotos, GaugeValue, 5000, []⟩,
        ⟨(New testClient).libraryVideos, GaugeValue, 1000, []⟩,
        ⟨(New testClient).libraryBytes, GaugeValue, 100000000000, []⟩,
        ⟨(New testClient).userPhotos, GaugeValue, 5000, ["alice"]⟩,
        ⟨(New testClient).userVideos, GaugeValue, 1000, ["alice"]⟩,
        ⟨(New testClient).userBytes, GaugeValue, 100000000000, ["alice"]⟩ ] ∧
    float64 100000000000 = 100000000000 := by
  have h := statistics_observations testClient testEnv 0 testStatistics rfl
  refine ⟨rfl, ?_, h.2.2.2.1 100000000000 (by decide)⟩
  rw [h.2.1]
  decide

/-- C6 as stated fails: a disk size of 9007199254740993 bytes (`2^53 + 1`) gets
an `immich_storage_total_bytes` observation of 9007199254740992. -/
theorem storage_counterexample :
    GetStorage testClient bigEnv = (some bigStorage, none) ∧
    bigStorage.DiskSize = 9007199254740993 ∧
    observations [(New testClient).storageTotal] (Collect (New testClient) bigEnv 0) =
      [ ⟨(New testClient).storageTotal, GaugeValue, 9007199254740992, []⟩ ] ∧
    (9007199254740992 : Float64) ≠ ((9007199254740993 : Int) : Float64) := by
  refine ⟨rfl, rfl, by decide, by decide⟩

/-- C6, amended: when `GetStorage` succeeds with a response `r`, `Collect` emits
exactly four unlabelled storage observations: `immich_storage_total_bytes`,
`immich_storage_used_bytes` and `immich_storage_available_bytes` hold the
`float64` conversion of `r.DiskSize`, `r.DiskUse` and `r.DiskAvailable`, which
is the field itself whenever its magnitude is at most `2^53` (so a disk size of
1000000000000 gives 1e12), and `immich_storage_usage_percent` holds the
percentage reported by upstream, unchanged. -/
theorem storage_observations (client : Client) (env : Env) (duration : Float64)
    (r : StorageResponse) (h : GetStorage client env = (some r, none)) :
    (storageFamilies (New client)).map Desc.fqName =
      [ "immich_storage_total_bytes", "immich_storage_used_bytes",
        "immich_storage_available_bytes", "immich_storage_usage_percent" ] ∧
    storageObservations client env duration =
      [ ⟨(New client).storageTotal, GaugeValue, float64 r.DiskSize, []⟩,
        ⟨(New client).storageUsed, GaugeValue, float64 r.DiskUse, []⟩,
        ⟨(New client).storageAvailable, GaugeValue, float64 r.DiskAvailable, []⟩,
        ⟨(New client).storageUsagePercent, GaugeValue, r.DiskUsagePercentage, []⟩ ] ∧
    (∀ n : Int, n.natAbs ≤ 2 ^ 53 → float64 n = n) ∧
    float64 1000000000000 = 1000000000000 := by
  refine ⟨rfl, ?_, float64_exact, float64_exact _ (by decide)⟩
  simp [storageObservations, observations_storage, storagePart, h, storageMetrics]

/-- Witness of C6: the storage response of the collector test. -/
theorem storage_observations_witness :
    GetStorage testClient testEnv = (some testStorage, none) ∧
    storageObservations testClient testEnv 0 =
      [ ⟨(New testClient).storageTotal, GaugeValue, 1000000000000, []⟩,
        ⟨(New testClient).storageUsed, GaugeValue, 500000000000, []⟩,
        ⟨(New testClient).storageAvailable, GaugeValue, 500000000000, []⟩,
        ⟨(New testClient).storageUsagePercent, GaugeValue, 0, []⟩ ] ∧
    float64 500000000000 = 500000000000 := by
  have h := storage_observations testClient testEnv 0 testStorage rfl
  refine ⟨rfl, ?_, h.2.2.1 500000000000 (by decide)⟩
  rw [h.2.1]
  decide

/-- C7: each of `GetJobs`, `GetStatistics` and `GetStorage` returns the decoded
value and no error exactly when the request completes, the response status is
200 and the body decodes; in every other case (the request cannot be built or
sent, a status other than 200 whatever the body, a body that does not decode)
it returns an error together with the nil result, whatever the decoder left
behind. -/
theorem fetch_contract (c : Client) (env : Env) :
    FetchContract c env env.decodeJobs "/api/jobs" (none : JobsResponse)
      (fun r => r) (none : JobsResponse) (GetJobs c env) ∧
    FetchContract c env env.decodeStatistics "/api/server/statistics" StatisticsResponse.zero
      some (none : Option StatisticsResponse) (GetStatistics c env) ∧
    FetchContract c env env.decodeStorage "/api/server/storage" StorageResponse.zero
      some (none : Option StorageResponse) (GetStorage c env) :=
  ⟨GetJobs_contract c env, GetStatistics_contract c env, GetStorage_contract c env⟩

/-- Witness of C7: a 401 answer to `GetJobs` (`TestGetJobs_Error`), a truncated
statistics body, and a storage fetch that succeeds. -/
theorem fetch_contract_witness :
    GetJobs testClient unauthorizedEnv = (none, some (Error.unexpectedStatusCode 401)) ∧
    GetStatistics testClient truncatedEnv = (none, some (Error.decodingResponse "unexpected EOF")) ∧
    GetStorage testClient testEnv = (some testStorage, none) ∧
    GetJobs testClient unreachableEnv = (none, some (Error.executingRequest "connection refused")) :=
  ⟨(fetch_contract testClient unauthorizedEnv).1.2.2.2.2.2.1 ⟨401, ""⟩ rfl rfl (by decide),
    (fetch_contract testClient truncatedEnv).2.1.2.2.2.2.2.2 ⟨200, ""⟩ "unexpected EOF" rfl rfl rfl rfl,
    (fetch_contract testClient testEnv).2.2.2.1 ⟨200, ""⟩ rfl rfl rfl rfl,
    (fetch_contract testClient unreachableEnv).1.2.2.2.2.1 "connection refused" rfl rfl⟩

/-- C8: the address stored by `NewClient b key` is `b` without its run of trailing
`/`: it does not end in `/`, `b` is it followed by some number of `/`, and it
is the only such string.  Two base addresses that differ only in the number of
trailing `/` therefore give the same client, and the same request URL for each
of the three resources. -/
theorem base_address_normalised (b key t : String) (k k2 : Nat) :
    (∀ u : String, (NewClient b key).baseURL ≠ u ++ "/") ∧
    (∃ n, b = (NewClient b key).baseURL ++ slashes n) ∧
    (∀ (u : String) (n : Nat), b = u ++ slashes n → (∀ v : String, u ≠ v ++ "/") →
      (NewClient b key).baseURL = u) ∧
    NewClient (t ++ slashes k) key = NewClient (t ++ slashes k2) key ∧
    requestURL (NewClient (t ++ slashes k) key) "/api/jobs" =
      requestURL (NewClient (t ++ slashes k2) key) "/api/jobs" ∧
    requestURL (NewClient (t ++ slashes k) key) "/api/server/statistics" =
      requestURL (NewClient (t ++ slashes k2) key) "/api/server/statistics" ∧
    requestURL (NewClient (t ++ slashes k) key) "/api/server/storage" =
      requestURL (NewClient (t ++ slashes k2) key) "/api/server/storage" := by
  have hk : NewClient (t ++ slashes k) key = NewClient (t ++ slashes k2) key := by
    simp [NewClient, TrimRight_slashes]
  refine ⟨fun u => TrimRight_no_slash b u, TrimRight_decompose b, ?_, hk, by rw [hk], by rw [hk],
    by rw [hk]⟩
  intro u n hb hu
  show TrimRight b "/" = u
  rw [hb, TrimRight_slashes, TrimRight_fixed u hu]

/-- Witness of C8: the address of `TestNewClient_NormalizesTrailingSlash`. -/
theorem base_address_normalised_witness :
    (NewClient "http://localhost:2283/" "test-key").baseURL = "http://localhost:2283" ∧
    requestURL (NewClient "http://localhost:2283///" "test-key") "/api/jobs" =
      "http://localhost:2283/api/jobs" :=
  ⟨(base_address_normalised "http://localhost:2283/" "test-key" "" 0 0).2.2.1
      "http://localhost:2283" 1 (by decide)
      (fun v h => by
        have h2 := congrArg (fun s => s.data.getLast?) h
        simp only [String.data_append] at h2
        revert h2
        show ¬ ("http://localhost:2283".data.getLast? = (v.data ++ ['/']).getLast?)
        rw [List.getLast?_append]
        simp),
    by decide⟩

/-- C9: `Describe` sends the 20 descriptors built by `New`, whose fully qualified
names are pairwise distinct; `Collect` never panics, and every metric it emits,
whatever the three fetches returned, belongs to one of those descriptors and
carries as many label values as the descriptor declares labels: one for the
eight queue-labelled and the three user-labelled families, none for the other
nine. -/
theorem catalogue_shape (client : Client) (env : Env) (duration : Float64) :
    (Describe (New client)).length = 20 ∧ 15 ≤ (Describe (New client)).length ∧
    (Describe (New client)).map Desc.fqName =
      [ "immich_job_active", "immich_job_waiting", "immich_job_failed", "immich_job_delayed",
        "immich_job_paused", "immich_job_completed", "immich_queue_active", "immich_queue_paused",
        "immich_library_photos", "immich_library_videos", "immich_library_bytes",
        "immich_user_photos", "immich_user_videos", "immich_user_bytes",
        "immich_storage_total_bytes", "immich_storage_used_bytes",
        "immich_storage_available_bytes", "immich_storage_usage_percent",
        "immich_scrape_duration_seconds", "immich_scrape_success" ] ∧
    ((Describe (New client)).map Desc.fqName).Nodup ∧
    (Describe (New client)).map Desc.variableLabels =
      [ ["queue"], ["queue"], ["queue"], ["queue"], ["queue"], ["queue"], ["queue"], ["queue"],
        [], [], [], ["user"], ["user"], ["user"], [], [], [], [], [], [] ] ∧
    ∃ sent, Collect (New client) env duration = Except.ok sent ∧
      ∀ m ∈ sent, m.desc ∈ Describe (New client) ∧
        m.labelValues.length = m.desc.variableLabels.length := by
  refine ⟨rfl, by simp [Describe], Describe_fqNames client, ?_, rfl, _, Collect_New client env duration, ?_⟩
  · rw [Describe_fqNames]
    decide
  · intro m hm
    rw [Describe_eq_append]
    simp only [List.mem_append] at hm ⊢
    rcases hm with ((hm | hm) | hm) | hm
    · exact ⟨Or.inl (jobsPart_desc _ _ m hm), jobsPart_shape _ _ m hm⟩
    · exact ⟨Or.inr (Or.inl (statisticsPart_desc _ _ m hm)), statisticsPart_shape _ _ m hm⟩
    · exact ⟨Or.inr (Or.inr (Or.inl (storagePart_desc _ _ m hm))), storagePart_shape _ _ m hm⟩
    · refine ⟨Or.inr (Or.inr (Or.inr (selfPart_desc _ _ _ m hm))), ?_⟩
      simp only [List.mem_cons, List.mem_singleton, List.not_mem_nil, or_false] at hm
      rcases hm with h | h <;> subst h <;> rfl

/-- Witness of C9: the run of the collector test emits 20 metrics, each of a
described family and of the declared label arity. -/
theorem catalogue_shape_witness :
    ∃ sent, Collect (New testClient) testEnv 0 = Except.ok sent ∧ sent.length = 20 ∧
      ∀ m ∈ sent, m.desc ∈ Describe (New testClient) ∧
        m.labelValues.length = m.desc.variableLabels.length := by
  obtain ⟨sent, h1, h2⟩ := (catalogue_shape testClient testEnv 0).2.2.2.2.2
  refine ⟨sent, h1, ?_, h2⟩
  have h3 : Collect (New testClient) testEnv 0 = Except.ok sent → sent.length = 20 := by
    rw [Collect_New]
    intro h
    injection h with h
    rw [← h]
    decide
  exact h3 h1

/-- C10: `Ping` returns exactly the error of `GetJobs`; it succeeds exactly when
a jobs fetch succeeds and fails with the same error otherwise, so an address
that cannot be reached makes it fail. -/
theorem ping_iff_jobs (c : Client) (env : Env) :
    Ping c env = (GetJobs c env).2 ∧
    (Ping c env = none ↔ (GetJobs c env).2 = none) ∧
    (∀ e, (GetJobs c env).2 = some e → Ping c env = some e) ∧
    (∀ e, env.requestError "GET" (c.baseURL ++ "/api/jobs") = none →
      env.Do c.httpClient (sentRequest c "/api/jobs") = Except.error e →
      Ping c env = some (Error.executingRequest e)) ∧
    (∀ e, env.requestError "GET" (c.baseURL ++ "/api/jobs") = some e →
      Ping c env = some (Error.creatingRequest e)) := by
  refine ⟨rfl, Iff.rfl, fun e h => h, ?_, ?_⟩
  · intro e h1 h2
    have := (GetJobs_contract c env).2.2.2.2.1 e h1 h2
    exact congrArg Prod.snd this
  · intro e h1
    have := (GetJobs_contract c env).2.2.2.1 e h1
    exact congrArg Prod.snd this

/-- Witness of C10: the unreachable server of `TestPing_Error`, and the empty
jobs response of `TestPing`. -/
theorem ping_iff_jobs_witness :
    Ping (NewClient "http://localhost:99999" "test-key") unreachableEnv =
      some (Error.executingRequest "connection refused") ∧
    Ping testClient (envOf (some ⟨[], List.nodup_nil⟩, none) (testStatistics, none)
      (testStorage, none)) = none :=
  ⟨(ping_iff_jobs _ unreachableEnv).2.2.2.1 "connection refused" rfl rfl,
    (ping_iff_jobs testClient _).2.1.mpr rfl⟩

/-- C12 as stated fails: a statistics response with two records for user name
`alice` gets two `immich_user_photos` observations labelled `user="alice"`. -/
theorem duplicate_user_counterexample :
    GetStatistics testClient dupEnv = (some dupStatistics, none) ∧
    dupStatistics.UsageByUser.map UserUsage.UserName = ["alice", "alice"] ∧
    observations [(New testClient).userPhotos] (Collect (New testClient) dupEnv 0) =
      [ ⟨(New testClient).userPhotos, GaugeValue, 3000, ["alice"]⟩,
        ⟨(New testClient).userPhotos, GaugeValue, 2000, ["alice"]⟩ ] ∧
    ∃ sent, Collect (New testClient) dupEnv 0 = Except.ok sent ∧
      ¬ (sent.map metricKey).Nodup := by
  refine ⟨rfl, rfl, by decide, _, Collect_New testClient dupEnv 0, by decide⟩

/-- C12, amended: within one snapshot, for every successful jobs response each
job and queue family has at most one observation per queue name, and every
storage and exporter family has one observation at most.  For every successful
statistics response each of `immich_user_photos`, `immich_user_videos` and
`immich_user_bytes` has, per user name, as many observations as the response
has records with that name.  Hence, when the user names of the response are
pairwise distinct, no two observations emitted by `Collect` have both the same
metric family and the same label values. -/
theorem observations_distinct (client : Client) (env : Env) (duration : Float64) :
    (userFamilies (New client)).map Desc.fqName =
      ["immich_user_photos", "immich_user_videos", "immich_user_bytes"] ∧
    ((jobObservations client env duration).map metricKey).Nodup ∧
    (∀ d q, ((jobObservations client env duration).filter
      (fun m => decide (m.desc = d ∧ m.labelValues = [q]))).length ≤ 1) ∧
    ((storageObservations client env duration).map metricKey).Nodup ∧
    ((selfObservations client env duration).map metricKey).Nodup ∧
    (∀ s, GetStatistics client env = (some s, none) →
      ∀ d ∈ userFamilies (New client), ∀ u,
        ((statisticsObservations client env duration).filter
          (fun m => decide (m.desc = d ∧ m.labelValues = [u]))).length =
          (s.UsageByUser.filter (fun r => decide (r.UserName = u))).length) ∧
    ((∀ s, (GetStatistics client env).1 = some s →
        (s.UsageByUser.map UserUsage.UserName).Nodup) →
      ∃ sent, Collect (New client) env duration = Except.ok sent ∧
        (sent.map metricKey).Nodup) := by
  have hj : ((jobObservations client env duration).map metricKey).Nodup := by
    rw [jobObservations, observations_jobs]
    exact jobsPart_keys_nodup client _
  refine ⟨rfl, hj, fun d q => length_filter_key_le_one _ hj d [q], ?_, ?_, ?_,
    collect_keys_nodup client env duration⟩
  · rw [storageObservations, observations_storage]
    exact storagePart_keys_nodup client _
  · rw [selfObservations, observations_self]
    exact selfPart_keys_nodup client _ _
  · intro s hs d hd u
    rw [statisticsObservations, observations_statistics, hs]
    exact length_filter_statistics client s d u hd

/-- Witness of C12: the responses of the collector test, whose only user is
`alice`, and the response with two records for `alice`. -/
theorem observations_distinct_witness :
    (∃ sent, Collect (New testClient) testEnv 0 = Except.ok sent ∧
      (sent.map metricKey).Nodup) ∧
    ((statisticsObservations testClient testEnv 0).filter
      (fun m => decide (m.desc = (New testClient).userBytes ∧ m.labelValues = ["alice"]))).length
      = 1 ∧
    ((statisticsObservations testClient dupEnv 0).filter
      (fun m => decide (m.desc = (New testClient).userBytes ∧ m.labelValues = ["alice"]))).length
      = 2 :=
  ⟨(observations_distinct testClient testEnv 0).2.2.2.2.2.2 (fun s h => by
      have h2 : some testStatistics = some s := h
      injection h2 with h2
      rw [← h2]
      decide),
    (observations_distinct testClient testEnv 0).2.2.2.2.2.1 testStatistics rfl
      (New testClient).userBytes (by simp [userFamilies]) "alice",
    (observations_distinct testClient dupEnv 0).2.2.2.2.2.1 dupStatistics rfl
      (New testClient).userBytes (by simp [userFamilies]) "alice"⟩

end Immich
